import Mathlib

/-!
Verification development for the offst funder core.

The Rust sources are shallowly embedded:
* fixed-width opaque byte strings (public keys, uids, invoice ids, random
  nonces) are modelled as `Nat`;
* signature buffers are modelled symbolically, one `Data` atom per field
  write performed by the Rust code (every field written has a fixed width or,
  for literals, a fixed distinct content, so two equal byte buffers
  correspond to equal atom lists and conversely);
* `sha_512_256` is modelled as an ideal (injective) hash: the `Data.hash`
  constructor; signatures are modelled as an ideal signature scheme: a
  signature value is either `Data.signed pk buff` (produced by the identity
  service of `pk` over `buff`, verification succeeding exactly on that
  pair), or one of the two kinds of non-signature values the code stores in
  signature slots: a public key padded to signature width
  (`Data.fromPublicKey`), or random bytes used as a reset token
  (`Data.resetToken`).

All symbolic values live in the single inductive `Data` (signature values,
buffer atoms, buffers as cons-chains, and `FriendTcOp` operations), so that
decidable equality can be derived.  `Signature`, `Atom` and `FriendTcOp` are
abbreviations of `Data` used to document intent in type signatures.
-/

namespace Offst

/-- Decidable equality for `Except` results (used to evaluate the embedded
fallible functions on concrete inputs). -/
instance instDecidableEqExcept {ε α : Type} [DecidableEq ε] [DecidableEq α] :
    DecidableEq (Except ε α) := fun x y =>
  match x, y with
  | Except.ok a, Except.ok b =>
      if h : a = b then isTrue (by rw [h])
      else isFalse (fun hc => h (Except.ok.inj hc))
  | Except.ok _, Except.error _ => isFalse (fun hc => Except.noConfusion hc)
  | Except.error _, Except.ok _ => isFalse (fun hc => Except.noConfusion hc)
  | Except.error a, Except.error b =>
      if h : a = b then isTrue (by rw [h])
      else isFalse (fun hc => h (Except.error.inj hc))

/-- Public keys are fixed-width opaque byte strings; modelled as `Nat`. -/
abbrev PublicKey := Nat

/-- Random values (nonces), modelled as `Nat`. -/
abbrev RandValue := Nat

/-- `usable_ratio` of a freeze link: `One` or `Numerator(u64)`. -/
inductive Ratio where
  | one : Ratio
  | numerator : Nat → Ratio
  deriving DecidableEq, Repr

/-- `FreezeLink { shared_credits: u128, usable_ratio }`. -/
structure FreezeLink where
  shared_credits : Nat
  usable_ratio : Ratio
  deriving DecidableEq, Repr

/-- Symbolic crypto values: buffers (`bnil`/`bcons` chains of atoms), buffer
atoms (one per Rust field write), signature-width values, and `FriendTcOp`
operations (which may contain signatures, hence live in the same type). -/
inductive Data where
  /-- empty signature buffer -/
  | bnil : Data
  /-- an atom followed by the rest of a signature buffer -/
  | bcons : Data → Data → Data
  /-- a byte-string literal such as `b"NEXT"` (given as its byte list) -/
  | lit : List Nat → Data
  /-- `write_u64::<BigEndian>` -/
  | u64be : Nat → Data
  /-- `write_u128::<BigEndian>` -/
  | u128be : Nat → Data
  /-- `write_i128::<BigEndian>` -/
  | i128be : Int → Data
  /-- a `Uid` (request id) written into a buffer -/
  | uid : Nat → Data
  /-- an `InvoiceId` written into a buffer -/
  | invoiceId : Nat → Data
  /-- a `RandValue` written into a buffer -/
  | randNonce : Nat → Data
  /-- a `PublicKey` written into a buffer -/
  | pubKey : Nat → Data
  /-- `sha_512_256` of a buffer (ideal hash: injective constructor) -/
  | hash : Data → Data
  /-- `route.to_bytes()` of a route (the route's public keys) -/
  | routeBytes : List Nat → Data
  /-- a signature produced by the identity service of the given public key
  over the given buffer -/
  | signed : Nat → Data → Data
  /-- `token_from_public_key`: a public key padded to signature width -/
  | fromPublicKey : Nat → Data
  /-- random bytes of signature width, used as a channel reset token -/
  | resetToken : Nat → Data
  /-- `FriendTcOp::EnableRequests` -/
  | enableRequests : Data
  /-- `FriendTcOp::DisableRequests` -/
  | disableRequests : Data
  /-- `FriendTcOp::SetRemoteMaxDebt(u128)` -/
  | setRemoteMaxDebt : Nat → Data
  /-- `FriendTcOp::RequestSendFunds { request_id, route, dest_payment,
  invoice_id, freeze_links }` -/
  | requestSendFunds : Nat → List Nat → Nat → Nat → List FreezeLink → Data
  /-- `FriendTcOp::ResponseSendFunds { request_id, rand_nonce, signature }` -/
  | responseSendFunds : Nat → Nat → Data → Data
  /-- `FriendTcOp::FailureSendFunds { request_id, reporting_public_key,
  rand_nonce, signature }` -/
  | failureSendFunds : Nat → Nat → Nat → Data → Data
  deriving DecidableEq

/-- Signature-width values (see `Data`). -/
abbrev Signature := Data

/-- Buffer atoms (see `Data`). -/
abbrev Atom := Data

/-- `FriendTcOp` operations (see `Data`). -/
abbrev FriendTcOp := Data

/-- A signature buffer assembled from a list of field writes. -/
def buffOf (atoms : List Atom) : Data :=
  atoms.foldr Data.bcons Data.bnil

theorem buffOf_injective : Function.Injective buffOf := by
  intro l₁ l₂ h
  induction l₁ generalizing l₂ with
  | nil => cases l₂ with
    | nil => rfl
    | cons b bs => simp [buffOf] at h
  | cons a as ih => cases l₂ with
    | nil => simp [buffOf] at h
    | cons b bs =>
      simp only [buffOf, List.foldr] at h
      obtain ⟨h₁, h₂⟩ := Data.bcons.inj h
      exact h₁ ▸ congrArg _ (ih h₂)

/-- Ideal-signature model of `crypto::identity::verify_signature`:
verification succeeds exactly on the signature produced by `public_key`'s
identity service over exactly `buffer`. -/
def verify_signature (buffer : List Atom) (public_key : PublicKey)
    (signature : Signature) : Bool :=
  signature = Data.signed public_key (buffOf buffer)

/-- Model of comparing `sha_512_256` images of public keys: the ideal hash is
injective and induces some strict total order on keys; modelled by the order
of the underlying `Nat`s. -/
def sha_512_256_pk_lt (a b : PublicKey) : Bool := a < b

/-! ## proto: funder messages used by `signature_buff.rs`

From `components/proto/src/funder/messages.rs` (declarations referenced by
the sources under verification; fields as used there). -/

/-- `PendingRequest { request_id, route, dest_payment, invoice_id }`.
The route is its ordered list of public keys (`FriendsRoute`). -/
structure PendingRequest where
  request_id : Nat
  route : List PublicKey
  dest_payment : Nat
  invoice_id : Nat
  deriving DecidableEq, Repr

/-- `ResponseSendFunds { request_id, rand_nonce, signature }`. -/
structure ResponseSendFunds where
  request_id : Nat
  rand_nonce : RandValue
  signature : Signature
  deriving DecidableEq

/-- `FailureSendFunds { request_id, reporting_public_key, rand_nonce,
signature }`. -/
structure FailureSendFunds where
  request_id : Nat
  reporting_public_key : PublicKey
  rand_nonce : RandValue
  signature : Signature
  deriving DecidableEq

/-- `SendFundsReceipt { response_hash, invoice_id, dest_payment, signature }`.
`response_hash` is a `HashResult`; in the symbolic model a hash value is
represented by its preimage buffer (it is written into buffers as
`Data.hash` of that buffer). -/
structure SendFundsReceipt where
  response_hash : List Atom
  invoice_id : Nat
  dest_payment : Nat
  signature : Signature
  deriving DecidableEq

/-- `FriendsRoute::pk_to_index`: index of the first occurrence of the public
key on the route. -/
def pk_to_index (route : List PublicKey) (public_key : PublicKey) :
    Option Nat :=
  route.indexOf? public_key

/-- `FriendsRoute::hash()`: `sha_512_256` of the route's serialization. -/
def route_hash (route : List PublicKey) : Atom :=
  Data.hash (buffOf [Data.routeBytes route])

/-! ## `components/proto/src/funder/signature_buff.rs` -/

/-- `FUND_SUCCESS_PREFIX = b"FUND_SUCCESS"` (ASCII bytes). -/
def FUND_SUCCESS_PREFIX : List Nat :=
  [70, 85, 78, 68, 95, 83, 85, 67, 67, 69, 83, 83]

/-- `FUND_FAILURE_PREFIX = b"FUND_FAILURE"` (ASCII bytes). -/
def FUND_FAILURE_PREFIX : List Nat :=
  [70, 85, 78, 68, 95, 70, 65, 73, 76, 85, 82, 69]

/-- `create_response_signature_buffer`: `sha_512_256(FUND_SUCCESS) ||
sha_512_256(request_id || route.hash() || rand_nonce) ||
u128_be(dest_payment) || invoice_id`. -/
def create_response_signature_buffer (response_send_funds : ResponseSendFunds)
    (pending_request : PendingRequest) : List Atom :=
  [Data.hash (buffOf [Data.lit FUND_SUCCESS_PREFIX]),
   Data.hash (buffOf [Data.uid pending_request.request_id,
                      route_hash pending_request.route,
                      Data.randNonce response_send_funds.rand_nonce]),
   Data.u128be pending_request.dest_payment,
   Data.invoiceId pending_request.invoice_id]

/-- `create_failure_signature_buffer`: `sha_512_256(FUND_FAILURE) ||
request_id || route.hash() || u128_be(dest_payment) || invoice_id ||
reporting_public_key || rand_nonce`. -/
def create_failure_signature_buffer (failure_send_funds : FailureSendFunds)
    (pending_request : PendingRequest) : List Atom :=
  [Data.hash (buffOf [Data.lit FUND_FAILURE_PREFIX]),
   Data.uid pending_request.request_id,
   route_hash pending_request.route,
   Data.u128be pending_request.dest_payment,
   Data.invoiceId pending_request.invoice_id,
   Data.pubKey failure_send_funds.reporting_public_key,
   Data.randNonce failure_send_funds.rand_nonce]

/-- `verify_failure_signature`: require the reporting public key to be on the
route (`pk_to_index`), then verify the signature over
`create_failure_signature_buffer` under the reporting public key. -/
def verify_failure_signature (failure_send_funds : FailureSendFunds)
    (pending_request : PendingRequest) : Option Unit := do
  let _ ← pk_to_index pending_request.route
            failure_send_funds.reporting_public_key
  if verify_signature
       (create_failure_signature_buffer failure_send_funds pending_request)
       failure_send_funds.reporting_public_key
       failure_send_funds.signature
  then some () else none

/-- `prepare_receipt`: `response_hash = sha_512_256(request_id ||
route.to_bytes() || rand_nonce)`; invoice id and dest payment copied from
the pending request, signature copied from the response. -/
def prepare_receipt (response_send_funds : ResponseSendFunds)
    (pending_request : PendingRequest) : SendFundsReceipt :=
  { response_hash := [Data.uid pending_request.request_id,
                      Data.routeBytes pending_request.route,
                      Data.randNonce response_send_funds.rand_nonce]
    invoice_id := pending_request.invoice_id
    dest_payment := pending_request.dest_payment
    signature := response_send_funds.signature }

/-- `verify_receipt`: verify the receipt's signature over `FUND_SUCCESS ||
response_hash || invoice_id || u128_be(dest_payment)` (note: raw prefix, and
invoice id before dest payment). -/
def verify_receipt (receipt : SendFundsReceipt) (public_key : PublicKey) :
    Bool :=
  verify_signature
    [Data.lit FUND_SUCCESS_PREFIX,
     Data.hash (buffOf receipt.response_hash),
     Data.invoiceId receipt.invoice_id,
     Data.u128be receipt.dest_payment]
    public_key receipt.signature

/-- `operations_hash`: `sha_512_256(u64_be(n) || op_0.bytes || …)`. -/
def operations_hash (operations : List FriendTcOp) : Atom :=
  Data.hash (buffOf (Data.u64be operations.length :: operations))

/-! ### Claims C4 and C8 (receipt verification, failure-signature check) -/

/-- C4: in fact a response signature valid over
`create_response_signature_buffer` never validates the receipt built by
`prepare_receipt`: `verify_receipt` signs over the raw `FUND_SUCCESS` prefix
where the response buffer uses its hash (the buffers also differ in using
`route.to_bytes()` instead of `route.hash()` inside the response hash, and in
swapping the order of invoice id and dest payment), so the two signed buffers
can never coincide. -/
theorem claim_C4 (r : ResponseSendFunds) (p : PendingRequest)
    (pk : PublicKey)
    (h : verify_signature (create_response_signature_buffer r p) pk
           r.signature = true) :
    verify_receipt (prepare_receipt r p) pk = false := by
  simp only [verify_signature, decide_eq_true_eq] at h
  simp [verify_receipt, prepare_receipt, verify_signature, h, buffOf,
    create_response_signature_buffer]

/-- Witness pending request for C4. -/
def c4_pending : PendingRequest :=
  { request_id := 1, route := [4, 9], dest_payment := 100, invoice_id := 6 }

/-- Witness response for C4: its signature is the destination key `9`'s
valid signature over `create_response_signature_buffer`. -/
def c4_response : ResponseSendFunds :=
  { request_id := 1
    rand_nonce := 2
    signature := Data.signed 9 (buffOf (create_response_signature_buffer
      { request_id := 1, rand_nonce := 2, signature := Data.bnil }
      c4_pending)) }

/-- Witness for C4 at a concrete correctly-signed response. -/
theorem claim_C4_witness :
    verify_signature (create_response_signature_buffer c4_response c4_pending)
      9 c4_response.signature = true ∧
    verify_receipt (prepare_receipt c4_response c4_pending) 9 = false :=
  ⟨by decide, claim_C4 c4_response c4_pending 9 (by decide)⟩

/-- C8 (amended): `verify_failure_signature` returns `Some(())` exactly when
the reporting public key appears anywhere on the route — endpoints included —
and the signature verifies over `create_failure_signature_buffer` under the
reporting public key.  (No strictly-between check is performed here.) -/
theorem claim_C8 (f : FailureSendFunds) (p : PendingRequest) :
    verify_failure_signature f p = some () ↔
      f.reporting_public_key ∈ p.route ∧
      verify_signature (create_failure_signature_buffer f p)
        f.reporting_public_key f.signature = true := by
  unfold verify_failure_signature pk_to_index
  cases hidx : p.route.indexOf? f.reporting_public_key with
  | none =>
    have hmem : f.reporting_public_key ∉ p.route := by
      have h' := List.indexOf?_eq_none_iff.mp hidx
      intro hm
      have := h' _ hm
      simp at this
    simp [Option.bind, hidx, hmem]
  | some i =>
    have hmem : f.reporting_public_key ∈ p.route := by
      by_contra hm
      have : p.route.indexOf? f.reporting_public_key = none :=
        List.indexOf?_eq_none_iff.mpr (by
          intro x hx
          simp only [beq_iff_eq]
          rintro rfl
          exact hm hx)
      simp [this] at hidx
    constructor
    · intro h
      refine ⟨hmem, ?_⟩
      by_contra hv
      simp only [Bool.not_eq_true] at hv
      simp [Option.bind, hidx, hv] at h
    · rintro ⟨-, hv⟩
      simp [Option.bind, hidx, hv]

/-- Pending request whose route starts at public key `10`. -/
def c8_pending : PendingRequest :=
  { request_id := 1, route := [10, 20], dest_payment := 5, invoice_id := 3 }

/-- A failure whose reporting public key is the route's FIRST key (`10`, the
requester), correctly signed under that key. -/
def c8_failure : FailureSendFunds :=
  { request_id := 1
    reporting_public_key := 10
    rand_nonce := 4
    signature := Data.signed 10 (buffOf (create_failure_signature_buffer
      { request_id := 1, reporting_public_key := 10, rand_nonce := 4,
        signature := Data.bnil }
      c8_pending)) }

/-- Counterexample to C8 as stated: the reporting public key equals the
route's first key (the requester), yet `verify_failure_signature` accepts. -/
theorem claim_C8_counterexample :
    c8_failure.reporting_public_key = c8_pending.route.head (by decide) ∧
    verify_failure_signature c8_failure c8_pending = some () := by
  constructor
  · decide
  · decide

/-! ## Mutual credit (C1 of the spec)

`components/funder/src/mutual_credit/` is not among the sources; modelled
from the spec (§3 "MutualCredit", §4.1 operation semantics).  The fee
schedule (`CreditCalculator`) is, per the spec, an opaque deterministic pure
function; it is threaded through as the `CreditCalc` argument. -/

/-- `RequestsStatus`: `Open` or `Closed` (constructors renamed `opened` /
`closed` because `open` is a Lean keyword). -/
inductive RequestsStatus where
  | opened : RequestsStatus
  | closed : RequestsStatus
  deriving DecidableEq, Repr

/-- `RequestSendFunds { request_id, route, dest_payment, invoice_id,
freeze_links }` (proto messages). -/
structure RequestSendFunds where
  request_id : Nat
  route : List PublicKey
  dest_payment : Nat
  invoice_id : Nat
  freeze_links : List FreezeLink
  deriving DecidableEq

/-- `create_pending_request`: forget the freeze links. -/
def create_pending_request (request_send_funds : RequestSendFunds) :
    PendingRequest :=
  { request_id := request_send_funds.request_id
    route := request_send_funds.route
    dest_payment := request_send_funds.dest_payment
    invoice_id := request_send_funds.invoice_id }

/-- Modelled from the spec: `MutualCredit` per-friend credit state (§3).
The two pending-request maps are association lists keyed by `Uid`. -/
structure MutualCredit where
  local_public_key : PublicKey
  remote_public_key : PublicKey
  balance : Int
  local_max_debt : Nat
  remote_max_debt : Nat
  local_pending_debt : Nat
  remote_pending_debt : Nat
  local_requests_status : RequestsStatus
  remote_requests_status : RequestsStatus
  pending_local_requests : List (Nat × PendingRequest)
  pending_remote_requests : List (Nat × PendingRequest)
  deriving DecidableEq

/-- Modelled from the spec: `MutualCredit::new(local_pk, remote_pk, balance)`
starts with the given balance, no debts, no pending requests, and requests
closed on both sides. -/
def MutualCredit.new (local_public_key remote_public_key : PublicKey)
    (balance : Int) : MutualCredit :=
  { local_public_key, remote_public_key, balance
    local_max_debt := 0, remote_max_debt := 0
    local_pending_debt := 0, remote_pending_debt := 0
    local_requests_status := RequestsStatus.closed
    remote_requests_status := RequestsStatus.closed
    pending_local_requests := [], pending_remote_requests := [] }

/-- `balance_for_reset = balance + remote_pending_debt − local_pending_debt`
(the conservative reset balance, §3). -/
def MutualCredit.balance_for_reset (mc : MutualCredit) : Int :=
  mc.balance + mc.remote_pending_debt - mc.local_pending_debt

/-- Modelled from the spec: `McMutation`, the typed mutations of a
`MutualCredit` (§9 sum-type discipline). -/
inductive McMutation where
  | setLocalRequestsStatus : RequestsStatus → McMutation
  | setRemoteRequestsStatus : RequestsStatus → McMutation
  | setLocalMaxDebt : Nat → McMutation
  | setRemoteMaxDebt : Nat → McMutation
  | setBalance : Int → McMutation
  | setLocalPendingDebt : Nat → McMutation
  | setRemotePendingDebt : Nat → McMutation
  | insertLocalPendingRequest : PendingRequest → McMutation
  | removeLocalPendingRequest : Nat → McMutation
  | insertRemotePendingRequest : PendingRequest → McMutation
  | removeRemotePendingRequest : Nat → McMutation
  deriving DecidableEq

/-- Modelled from the spec: apply one `McMutation`. -/
def MutualCredit.mutate (mc : MutualCredit) (m : McMutation) : MutualCredit :=
  match m with
  | McMutation.setLocalRequestsStatus s => { mc with local_requests_status := s }
  | McMutation.setRemoteRequestsStatus s => { mc with remote_requests_status := s }
  | McMutation.setLocalMaxDebt n => { mc with local_max_debt := n }
  | McMutation.setRemoteMaxDebt n => { mc with remote_max_debt := n }
  | McMutation.setBalance b => { mc with balance := b }
  | McMutation.setLocalPendingDebt n => { mc with local_pending_debt := n }
  | McMutation.setRemotePendingDebt n => { mc with remote_pending_debt := n }
  | McMutation.insertLocalPendingRequest p =>
      { mc with pending_local_requests :=
          mc.pending_local_requests ++ [(p.request_id, p)] }
  | McMutation.removeLocalPendingRequest u =>
      { mc with pending_local_requests :=
          mc.pending_local_requests.filter (fun kv => kv.1 ≠ u) }
  | McMutation.insertRemotePendingRequest p =>
      { mc with pending_remote_requests :=
          mc.pending_remote_requests ++ [(p.request_id, p)] }
  | McMutation.removeRemotePendingRequest u =>
      { mc with pending_remote_requests :=
          mc.pending_remote_requests.filter (fun kv => kv.1 ≠ u) }

/-- Errors of a single credit operation (§4.1). -/
inductive ProcessOperationError where
  | RequestsClosed : ProcessOperationError
  | DuplicateRequest : ProcessOperationError
  | CreditsOverflow : ProcessOperationError
  | RequestDoesNotExist : ProcessOperationError
  | InvalidSignature : ProcessOperationError
  | InsufficientTrust : ProcessOperationError
  | ReportingNodeNonexistent : ProcessOperationError
  | InvalidReportingNode : ProcessOperationError
  /-- model artifact: a symbolic `Data` value that is not one of the six
  `FriendTcOp` constructors (the Rust type system makes this impossible) -/
  | NotAnOperation : ProcessOperationError
  deriving DecidableEq, Repr

/-- `ProcessTransListError { index, process_trans_error }`. -/
structure ProcessTransListError where
  index : Nat
  error : ProcessOperationError
  deriving DecidableEq, Repr

/-- `IncomingResponseSendFunds { pending_request, incoming_response }`. -/
structure IncomingResponseSendFunds where
  pending_request : PendingRequest
  incoming_response : ResponseSendFunds
  deriving DecidableEq

/-- `IncomingFailureSendFunds { pending_request, incoming_failure }`. -/
structure IncomingFailureSendFunds where
  pending_request : PendingRequest
  incoming_failure : FailureSendFunds
  deriving DecidableEq

/-- `IncomingMessage`: what an applied incoming operation hands the caller. -/
inductive IncomingMessage where
  | request : RequestSendFunds → IncomingMessage
  | response : IncomingResponseSendFunds → IncomingMessage
  | failure : IncomingFailureSendFunds → IncomingMessage
  deriving DecidableEq

/-- `ProcessOperationOutput { incoming_message, mc_mutations }`. -/
structure ProcessOperationOutput where
  incoming_message : Option IncomingMessage
  mc_mutations : List McMutation
  deriving DecidableEq

/-- Modelled from the spec: the opaque deterministic fee schedule
(`CreditCalculator`, §4.3): total fees frozen on top of `dest_payment` for a
route, and the partial charge for the prefix of a route up to a reporting
node. -/
structure CreditCalc where
  freeze_fees : List PublicKey → Nat → Nat
  prefix_fees : List PublicKey → Nat → Nat

/-- The credit frozen for a pending request: `dest_payment +
fees_along_route` (§4.1). -/
def CreditCalc.freeze_amount (cc : CreditCalc) (route : List PublicKey)
    (dest_payment : Nat) : Nat :=
  dest_payment + cc.freeze_fees route dest_payment

/-- Association-list lookup by `Uid`. -/
def uidLookup (u : Nat) (l : List (Nat × PendingRequest)) :
    Option PendingRequest :=
  (l.find? (fun kv => kv.1 = u)).map (·.2)

/-- Modelled from the spec: `process_operation` for an incoming operation
(§4.1).  Returns the mutations applied to `mc` together with the resulting
state (the state is the mutations folded over `mc`, as in the source). -/
def process_operation (cc : CreditCalc) (mc : MutualCredit)
    (op : FriendTcOp) :
    Except ProcessOperationError (MutualCredit × ProcessOperationOutput) :=
  match op with
  | Data.enableRequests =>
      let muts := [McMutation.setRemoteRequestsStatus RequestsStatus.opened]
      Except.ok (muts.foldl MutualCredit.mutate mc,
        { incoming_message := none, mc_mutations := muts })
  | Data.disableRequests =>
      let muts := [McMutation.setRemoteRequestsStatus RequestsStatus.closed]
      Except.ok (muts.foldl MutualCredit.mutate mc,
        { incoming_message := none, mc_mutations := muts })
  | Data.setRemoteMaxDebt n =>
      if n < mc.local_pending_debt then
        Except.error ProcessOperationError.InsufficientTrust
      else
        let muts := [McMutation.setLocalMaxDebt n]
        Except.ok (muts.foldl MutualCredit.mutate mc,
          { incoming_message := none, mc_mutations := muts })
  | Data.requestSendFunds rid route dp inv links =>
      let r : RequestSendFunds :=
        { request_id := rid, route := route, dest_payment := dp
          invoice_id := inv, freeze_links := links }
      if mc.local_requests_status ≠ RequestsStatus.opened then
        Except.error ProcessOperationError.RequestsClosed
      else if (uidLookup rid mc.pending_local_requests).isSome ∨
              (uidLookup rid mc.pending_remote_requests).isSome then
        Except.error ProcessOperationError.DuplicateRequest
      else
        let freeze := cc.freeze_amount route dp
        if mc.remote_max_debt <
            mc.balance + ((mc.remote_pending_debt + freeze : Nat) : Int) then
          Except.error ProcessOperationError.CreditsOverflow
        else
          let muts := [McMutation.setRemotePendingDebt
                         (mc.remote_pending_debt + freeze),
                       McMutation.insertRemotePendingRequest
                         (create_pending_request r)]
          Except.ok (muts.foldl MutualCredit.mutate mc,
            { incoming_message := some (IncomingMessage.request r)
              mc_mutations := muts })
  | Data.responseSendFunds rid nonce sig =>
      let resp : ResponseSendFunds :=
        { request_id := rid, rand_nonce := nonce, signature := sig }
      match uidLookup rid mc.pending_local_requests with
      | none => Except.error ProcessOperationError.RequestDoesNotExist
      | some pending =>
          let dest := pending.route.getLastD 0
          if ¬ verify_signature
                 (create_response_signature_buffer resp pending)
                 dest sig then
            Except.error ProcessOperationError.InvalidSignature
          else
            let freeze := cc.freeze_amount pending.route pending.dest_payment
            let muts := [McMutation.setLocalPendingDebt
                           (mc.local_pending_debt - freeze),
                         McMutation.setBalance (mc.balance - freeze),
                         McMutation.removeLocalPendingRequest rid]
            Except.ok (muts.foldl MutualCredit.mutate mc,
              { incoming_message := some (IncomingMessage.response
                  { pending_request := pending, incoming_response := resp })
                mc_mutations := muts })
  | Data.failureSendFunds rid reporting nonce sig =>
      let fsf : FailureSendFunds :=
        { request_id := rid, reporting_public_key := reporting
          rand_nonce := nonce, signature := sig }
      match uidLookup rid mc.pending_local_requests with
      | none => Except.error ProcessOperationError.RequestDoesNotExist
      | some pending =>
          match pk_to_index pending.route reporting with
          | none => Except.error ProcessOperationError.ReportingNodeNonexistent
          | some ri =>
              if ri = 0 ∨ ri = pending.route.length - 1 then
                Except.error ProcessOperationError.InvalidReportingNode
              else if ¬ verify_signature
                       (create_failure_signature_buffer fsf pending)
                       reporting sig then
                Except.error ProcessOperationError.InvalidSignature
              else
                let freeze :=
                  cc.freeze_amount pending.route pending.dest_payment
                let charged :=
                  cc.prefix_fees (pending.route.take (ri + 1))
                    pending.dest_payment
                let muts := [McMutation.setLocalPendingDebt
                               (mc.local_pending_debt - freeze),
                             McMutation.setBalance (mc.balance - charged),
                             McMutation.removeLocalPendingRequest rid]
                Except.ok (muts.foldl MutualCredit.mutate mc,
                  { incoming_message := some (IncomingMessage.failure
                      { pending_request := pending, incoming_failure := fsf })
                    mc_mutations := muts })
  | _ => Except.error ProcessOperationError.NotAnOperation

/-- `process_operations_list` applied from position `i`: apply the
operations in order, mutating the credit in place; stop at the first error,
keeping the partial mutations (the source mutates the forked credit through
a `&mut` borrow, so a failed batch leaves the fork partially applied). -/
def process_operations_list_from (cc : CreditCalc) (mc : MutualCredit)
    (operations : List FriendTcOp) (i : Nat) :
    MutualCredit × Except ProcessTransListError (List ProcessOperationOutput) :=
  match operations with
  | [] => (mc, Except.ok [])
  | op :: rest =>
      match process_operation cc mc op with
      | Except.error e => (mc, Except.error ⟨i, e⟩)
      | Except.ok (mc', out) =>
          let r := process_operations_list_from cc mc' rest (i + 1)
          (r.1, r.2.map (fun outs => out :: outs))

/-- `process_operations_list`. -/
def process_operations_list (cc : CreditCalc) (mc : MutualCredit)
    (operations : List FriendTcOp) :
    MutualCredit × Except ProcessTransListError (List ProcessOperationOutput) :=
  process_operations_list_from cc mc operations 0

/-! ## `components/funder/src/token_channel.rs` -/

/-- The move-token message.  This merges the proto `MoveToken<A>` (which has
`opt_local_address`, with the address type `A` modelled as `Nat`) with the
older `FriendMoveToken` of `token_channel.rs`, which lacks the field; tokens
built by `token_channel.rs` always carry `opt_local_address = none`. -/
structure MoveToken where
  operations : List FriendTcOp
  opt_local_address : Option Nat
  old_token : Signature
  inconsistency_counter : Nat
  move_token_counter : Nat
  balance : Int
  local_pending_debt : Nat
  remote_pending_debt : Nat
  rand_nonce : RandValue
  new_token : Signature
  deriving DecidableEq

/-- `TOKEN_NEXT = b"NEXT"` (ASCII bytes). -/
def TOKEN_NEXT : List Nat := [78, 69, 88, 84]

/-- `friend_move_token_signature_buff`: `sha_512_256(NEXT) ||
operations_hash || old_token || u64_be(inconsistency_counter) ||
u128_be(move_token_counter) || i128_be(balance) ||
u128_be(local_pending_debt) || u128_be(remote_pending_debt) || rand_nonce`
(note: `opt_local_address` is not part of the signed buffer). -/
def friend_move_token_signature_buff (friend_move_token : MoveToken) :
    List Atom :=
  [Data.hash (buffOf [Data.lit TOKEN_NEXT]),
   operations_hash friend_move_token.operations,
   friend_move_token.old_token,
   Data.u64be friend_move_token.inconsistency_counter,
   Data.u128be friend_move_token.move_token_counter,
   Data.i128be friend_move_token.balance,
   Data.u128be friend_move_token.local_pending_debt,
   Data.u128be friend_move_token.remote_pending_debt,
   Data.randNonce friend_move_token.rand_nonce]

/-- `verify_friend_move_token` / `verify_move_token` /
`FriendMoveToken::verify`: `new_token` is a valid signature over the rest of
the fields under the given public key. -/
def verify_move_token (friend_move_token : MoveToken)
    (public_key : PublicKey) : Bool :=
  verify_signature (friend_move_token_signature_buff friend_move_token)
    public_key friend_move_token.new_token

/-- Modelled from the spec: `FriendMoveToken::new` (in the missing
`types.rs`): assemble the fields and have the identity service of
`local_public_key` sign the canonical buffer. -/
def FriendMoveToken.new (operations : List FriendTcOp)
    (old_token : Signature) (inconsistency_counter move_token_counter : Nat)
    (balance : Int) (local_pending_debt remote_pending_debt : Nat)
    (rand_nonce : RandValue) (local_public_key : PublicKey) : MoveToken :=
  let t : MoveToken :=
    { operations, opt_local_address := none, old_token
      inconsistency_counter, move_token_counter, balance
      local_pending_debt, remote_pending_debt, rand_nonce
      new_token := Data.bnil }
  { t with new_token :=
      (Data.signed local_public_key
        (buffOf (friend_move_token_signature_buff t))) }

/-- `SetDirection`. -/
inductive SetDirection where
  | incoming : MoveToken → SetDirection
  | outgoing : MoveToken → SetDirection
  deriving DecidableEq

/-- `TcMutation`. -/
inductive TcMutation where
  | mcMutation : McMutation → TcMutation
  | setDirection : SetDirection → TcMutation
  | setTokenWanted : TcMutation
  deriving DecidableEq

/-- `TcOutgoing { mutual_credit, move_token_out, token_wanted,
opt_prev_move_token_in }`. -/
structure TcOutgoing where
  mutual_credit : MutualCredit
  move_token_out : MoveToken
  token_wanted : Bool
  opt_prev_move_token_in : Option MoveToken
  deriving DecidableEq

/-- `TcIncoming { mutual_credit, move_token_in }`. -/
structure TcIncoming where
  mutual_credit : MutualCredit
  move_token_in : MoveToken
  deriving DecidableEq

/-- `TcDirection`. -/
inductive TcDirection where
  | incoming : TcIncoming → TcDirection
  | outgoing : TcOutgoing → TcDirection
  deriving DecidableEq

/-- `TokenChannel { direction }`. -/
structure TokenChannel where
  direction : TcDirection
  deriving DecidableEq

/-- `ReceiveMoveTokenError`. -/
inductive ReceiveMoveTokenError where
  | ChainInconsistency : ReceiveMoveTokenError
  | InvalidTransaction : ProcessTransListError → ReceiveMoveTokenError
  | InvalidSignature : ReceiveMoveTokenError
  | InvalidStatedBalance : ReceiveMoveTokenError
  | InvalidInconsistencyCounter : ReceiveMoveTokenError
  | MoveTokenCounterOverflow : ReceiveMoveTokenError
  | InvalidMoveTokenCounter : ReceiveMoveTokenError
  deriving DecidableEq

/-- `MoveTokenReceived { incoming_messages, mutations }`. -/
structure MoveTokenReceived where
  incoming_messages : List IncomingMessage
  mutations : List TcMutation
  deriving DecidableEq

/-- `ReceiveMoveTokenOutput`. -/
inductive ReceiveMoveTokenOutput where
  | duplicate : ReceiveMoveTokenOutput
  | retransmitOutgoing : MoveToken → ReceiveMoveTokenOutput
  | received : MoveTokenReceived → ReceiveMoveTokenOutput
  deriving DecidableEq

/-- `token_from_public_key`: the public key padded to signature width (not a
real signature; used for the deterministic genesis). -/
def token_from_public_key (public_key : PublicKey) : Signature :=
  Data.fromPublicKey public_key

/-- `rand_nonce_from_public_key`: a prefix of `sha_512_256(public_key)`;
deterministic and injective in the key, modelled as the key itself. -/
def rand_nonce_from_public_key (public_key : PublicKey) : RandValue :=
  public_key

/-- `u128::checked_add`. -/
def checked_add_u128 (a b : Nat) : Option Nat :=
  if a + b ≤ 2 ^ 128 - 1 then some (a + b) else none

/-- `TokenChannel::new`: deterministic genesis.  Note the genesis move token
is built once, from the caller's own `(local, remote)` position, before the
hash comparison decides the starting direction. -/
def TokenChannel.new (local_public_key remote_public_key : PublicKey) :
    TokenChannel :=
  let balance : Int := 0
  let mutual_credit :=
    MutualCredit.new local_public_key remote_public_key balance
  let rand_nonce := rand_nonce_from_public_key remote_public_key
  let first_move_token_lower : MoveToken :=
    { operations := []
      opt_local_address := none
      old_token := token_from_public_key local_public_key
      inconsistency_counter := 0
      move_token_counter := 0
      balance := 0
      local_pending_debt := 0
      remote_pending_debt := 0
      rand_nonce
      new_token := token_from_public_key remote_public_key }
  if sha_512_256_pk_lt local_public_key remote_public_key then
    -- We are the first sender
    { direction := TcDirection.outgoing
        { mutual_credit
          move_token_out := first_move_token_lower
          token_wanted := false
          opt_prev_move_token_in := none } }
  else
    -- We are the second sender
    { direction := TcDirection.incoming
        { mutual_credit
          move_token_in := first_move_token_lower } }

/-- `TokenChannel::new_from_remote_reset`. -/
def TokenChannel.new_from_remote_reset
    (local_public_key remote_public_key : PublicKey)
    (reset_move_token : MoveToken) (balance : Int) : TokenChannel :=
  { direction := TcDirection.incoming
      { mutual_credit :=
          MutualCredit.new local_public_key remote_public_key balance
        move_token_in := reset_move_token } }

/-- `TokenChannel::new_from_local_reset`. -/
def TokenChannel.new_from_local_reset
    (local_public_key remote_public_key : PublicKey)
    (reset_move_token : MoveToken) (balance : Int)
    (opt_last_incoming_move_token : Option MoveToken) : TokenChannel :=
  { direction := TcDirection.outgoing
      { mutual_credit :=
          MutualCredit.new local_public_key remote_public_key balance
        move_token_out := reset_move_token
        token_wanted := false
        opt_prev_move_token_in := opt_last_incoming_move_token } }

/-- `TokenChannel::get_mutual_credit`. -/
def TokenChannel.get_mutual_credit (tc : TokenChannel) : MutualCredit :=
  match tc.direction with
  | TcDirection.incoming tc_incoming => tc_incoming.mutual_credit
  | TcDirection.outgoing tc_outgoing => tc_outgoing.mutual_credit

/-- `TokenChannel::get_remote_max_debt`. -/
def TokenChannel.get_remote_max_debt (tc : TokenChannel) : Nat :=
  tc.get_mutual_credit.remote_max_debt

/-- `TokenChannel::get_last_incoming_move_token`. -/
def TokenChannel.get_last_incoming_move_token (tc : TokenChannel) :
    Option MoveToken :=
  match tc.direction with
  | TcDirection.incoming tc_incoming => some tc_incoming.move_token_in
  | TcDirection.outgoing tc_outgoing => tc_outgoing.opt_prev_move_token_in

/-- `TokenChannel::mutate`; `none` models the `unreachable!` panic
(`SetTokenWanted` while the direction is `Incoming`). -/
def TokenChannel.mutate (tc : TokenChannel) (d_mutation : TcMutation) :
    Option TokenChannel :=
  match d_mutation with
  | TcMutation.mcMutation mc_mutation =>
      match tc.direction with
      | TcDirection.incoming tc_incoming =>
          some { direction := (TcDirection.incoming
            { tc_incoming with
              mutual_credit := tc_incoming.mutual_credit.mutate mc_mutation }) }
      | TcDirection.outgoing tc_outgoing =>
          some { direction := (TcDirection.outgoing
            { tc_outgoing with
              mutual_credit := tc_outgoing.mutual_credit.mutate mc_mutation }) }
  | TcMutation.setDirection set_direction =>
      some { direction :=
        match set_direction with
        | SetDirection.incoming friend_move_token =>
            TcDirection.incoming
              { mutual_credit := tc.get_mutual_credit
                move_token_in := friend_move_token }
        | SetDirection.outgoing friend_move_token =>
            TcDirection.outgoing
              { mutual_credit := tc.get_mutual_credit
                move_token_out := friend_move_token
                token_wanted := false
                opt_prev_move_token_in := tc.get_last_incoming_move_token } }
  | TcMutation.setTokenWanted =>
      match tc.direction with
      | TcDirection.incoming _ => none
      | TcDirection.outgoing tc_outgoing =>
          some { direction := (TcDirection.outgoing
            { tc_outgoing with token_wanted := true }) }

/-- `TokenChannel::get_cur_move_token`. -/
def TokenChannel.get_cur_move_token (tc : TokenChannel) : MoveToken :=
  match tc.direction with
  | TcDirection.incoming tc_incoming => tc_incoming.move_token_in
  | TcDirection.outgoing tc_outgoing => tc_outgoing.move_token_out

/-- `TokenChannel::get_inconsistency_counter`. -/
def TokenChannel.get_inconsistency_counter (tc : TokenChannel) : Nat :=
  tc.get_cur_move_token.inconsistency_counter

/-- `TokenChannel::get_move_token_counter`. -/
def TokenChannel.get_move_token_counter (tc : TokenChannel) : Nat :=
  tc.get_cur_move_token.move_token_counter

/-- `TokenChannel::get_new_token`. -/
def TokenChannel.get_new_token (tc : TokenChannel) : Signature :=
  match tc.direction with
  | TcDirection.incoming tc_incoming => tc_incoming.move_token_in.new_token
  | TcDirection.outgoing tc_outgoing => tc_outgoing.move_token_out.new_token

/-- `TokenChannel::is_outgoing`. -/
def TokenChannel.is_outgoing (tc : TokenChannel) : Bool :=
  match tc.direction with
  | TcDirection.incoming _ => false
  | TcDirection.outgoing _ => true

/-- `TcIncoming::handle_incoming`: a byte-identical retransmission is a
`Duplicate`; anything else is a chain inconsistency (the signature is not
re-checked in this flow). -/
def TcIncoming.handle_incoming (tc_incoming : TcIncoming)
    (new_move_token : MoveToken) :
    Except ReceiveMoveTokenError ReceiveMoveTokenOutput :=
  if tc_incoming.move_token_in = new_move_token then
    Except.ok ReceiveMoveTokenOutput.duplicate
  else
    Except.error ReceiveMoveTokenError.ChainInconsistency

/-- `TcOutgoing::handle_incoming_token_match`: verify the counters, fork the
mutual credit and apply the batch, verify the stated balance (note: on the
possibly partially-applied fork, before the batch result is examined), then
assemble `MoveTokenReceived`. -/
def TcOutgoing.handle_incoming_token_match (cc : CreditCalc)
    (tc_outgoing : TcOutgoing) (new_move_token : MoveToken) :
    Except ReceiveMoveTokenError ReceiveMoveTokenOutput :=
  if new_move_token.inconsistency_counter ≠
      tc_outgoing.move_token_out.inconsistency_counter then
    Except.error ReceiveMoveTokenError.InvalidInconsistencyCounter
  else
    match checked_add_u128 tc_outgoing.move_token_out.move_token_counter 1 with
    | none => Except.error ReceiveMoveTokenError.MoveTokenCounterOverflow
    | some expected_move_token_counter =>
      if new_move_token.move_token_counter ≠ expected_move_token_counter then
        Except.error ReceiveMoveTokenError.InvalidMoveTokenCounter
      else
        let forked := process_operations_list cc tc_outgoing.mutual_credit
          new_move_token.operations
        if forked.1.balance ≠ new_move_token.balance ∨
           forked.1.local_pending_debt ≠ new_move_token.local_pending_debt ∨
           forked.1.remote_pending_debt ≠ new_move_token.remote_pending_debt
        then
          Except.error ReceiveMoveTokenError.InvalidStatedBalance
        else
          match forked.2 with
          | Except.ok outputs =>
              Except.ok (ReceiveMoveTokenOutput.received
                { incoming_messages :=
                    outputs.filterMap (fun o => o.incoming_message)
                  mutations :=
                    (outputs.flatMap (fun o =>
                      o.mc_mutations.map TcMutation.mcMutation)) ++
                    [TcMutation.setDirection
                      (SetDirection.incoming new_move_token)] })
          | Except.error e =>
              Except.error (ReceiveMoveTokenError.InvalidTransaction e)

/-- `TcOutgoing::handle_incoming`: verify the signature, then dispatch on
token match / retransmission / chain inconsistency. -/
def TcOutgoing.handle_incoming (cc : CreditCalc) (tc_outgoing : TcOutgoing)
    (new_move_token : MoveToken) :
    Except ReceiveMoveTokenError ReceiveMoveTokenOutput :=
  if ¬ verify_move_token new_move_token
        tc_outgoing.mutual_credit.remote_public_key then
    Except.error ReceiveMoveTokenError.InvalidSignature
  else if new_move_token.old_token = tc_outgoing.move_token_out.new_token then
    TcOutgoing.handle_incoming_token_match cc tc_outgoing new_move_token
  else if tc_outgoing.move_token_out.old_token = new_move_token.new_token then
    Except.ok (ReceiveMoveTokenOutput.retransmitOutgoing
      tc_outgoing.move_token_out)
  else
    Except.error ReceiveMoveTokenError.ChainInconsistency

/-- `TokenChannel::simulate_receive_move_token`. -/
def TokenChannel.simulate_receive_move_token (cc : CreditCalc)
    (tc : TokenChannel) (new_move_token : MoveToken) :
    Except ReceiveMoveTokenError ReceiveMoveTokenOutput :=
  match tc.direction with
  | TcDirection.incoming tc_incoming =>
      tc_incoming.handle_incoming new_move_token
  | TcDirection.outgoing tc_outgoing =>
      TcOutgoing.handle_incoming cc tc_outgoing new_move_token

/-- `TcIncoming::create_friend_move_token` (signing modelled from the spec,
see `FriendMoveToken.new`): the next outgoing move token chain-links to
`move_token_in.new_token` and advances the counter (wrapping u128 add). -/
def TcIncoming.create_friend_move_token (tc_incoming : TcIncoming)
    (operations : List FriendTcOp) (rand_nonce : RandValue)
    (local_public_key : PublicKey) : MoveToken :=
  FriendMoveToken.new operations
    tc_incoming.move_token_in.new_token
    tc_incoming.move_token_in.inconsistency_counter
    ((tc_incoming.move_token_in.move_token_counter + 1) % 2 ^ 128)
    tc_incoming.mutual_credit.balance
    tc_incoming.mutual_credit.local_pending_debt
    tc_incoming.mutual_credit.remote_pending_debt
    rand_nonce local_public_key

/-! ### Claim C3 (order of the stated-balance check) -/

/-- A trivial concrete fee schedule (all fees zero), used for witnesses. -/
def zero_credit_calc : CreditCalc :=
  { freeze_fees := fun _ _ => 0, prefix_fees := fun _ _ => 0 }

/-- C3 (amended): for a correctly signed, token-matching move token with
correct counters whose operations batch fails with error `e`, the stated
balance is checked first, against the partially applied fork: the result is
`InvalidStatedBalance` when the fork's balances differ from the stated ones,
and `InvalidTransaction(e)` only otherwise. -/
theorem claim_C3 (cc : CreditCalc) (tco : TcOutgoing) (new : MoveToken)
    (e : ProcessTransListError)
    (hsig : verify_move_token new tco.mutual_credit.remote_public_key = true)
    (hmatch : new.old_token = tco.move_token_out.new_token)
    (hinc : new.inconsistency_counter =
      tco.move_token_out.inconsistency_counter)
    (hctr : checked_add_u128 tco.move_token_out.move_token_counter 1 =
      some new.move_token_counter)
    (hfail : (process_operations_list cc tco.mutual_credit new.operations).2 =
      Except.error e) :
    TcOutgoing.handle_incoming cc tco new =
      (if (process_operations_list cc tco.mutual_credit
            new.operations).1.balance ≠ new.balance ∨
          (process_operations_list cc tco.mutual_credit
            new.operations).1.local_pending_debt ≠ new.local_pending_debt ∨
          (process_operations_list cc tco.mutual_credit
            new.operations).1.remote_pending_debt ≠ new.remote_pending_debt
       then Except.error ReceiveMoveTokenError.InvalidStatedBalance
       else Except.error (ReceiveMoveTokenError.InvalidTransaction e)) := by
  unfold TcOutgoing.handle_incoming TcOutgoing.handle_incoming_token_match
  rw [hsig, hctr]
  simp only [hmatch, hinc, hfail, ne_eq, not_true_eq_false, if_false,
    if_true, ite_false, ite_true, not_false_eq_true, Bool.not_true,
    reduceIte]

/-- The mutual credit of the C3 counterexample channel: one unit of local
pending debt (so that shrinking our max debt to 0 fails with
`InsufficientTrust`). -/
def c3_mc : MutualCredit :=
  { MutualCredit.new 1 2 0 with local_pending_debt := 1 }

/-- The last outgoing move token of the C3 counterexample channel. -/
def c3_prev : MoveToken :=
  { operations := []
    opt_local_address := none
    old_token := Data.resetToken 0
    inconsistency_counter := 0
    move_token_counter := 0
    balance := 0
    local_pending_debt := 1
    remote_pending_debt := 0
    rand_nonce := 0
    new_token := Data.resetToken 5 }

/-- The C3 counterexample channel side (Outgoing direction). -/
def c3_tco : TcOutgoing :=
  { mutual_credit := c3_mc
    move_token_out := c3_prev
    token_wanted := false
    opt_prev_move_token_in := none }

/-- The C3 counterexample incoming move token: correctly signed by the
remote key `2`, token-matching, counters correct; its single operation
(`SetRemoteMaxDebt(0)`) fails with `InsufficientTrust` at index 0, and its
stated balance `1` differs from the fork's balance `0`. -/
def c3_new : MoveToken :=
  FriendMoveToken.new [Data.setRemoteMaxDebt 0] c3_prev.new_token 0 1 1 0 0 3 2

/-- Counterexample to C3 as stated: the operations batch fails with an
`OpError`, yet `simulate_receive_move_token` returns `InvalidStatedBalance`,
not `InvalidTransaction` — the stated-balance check ran first. -/
theorem claim_C3_counterexample :
    (process_operations_list zero_credit_calc c3_tco.mutual_credit
      c3_new.operations).2 =
      Except.error ⟨0, ProcessOperationError.InsufficientTrust⟩ ∧
    TokenChannel.simulate_receive_move_token zero_credit_calc
      { direction := TcDirection.outgoing c3_tco } c3_new =
      Except.error ReceiveMoveTokenError.InvalidStatedBalance := by
  constructor
  · decide
  · decide

/-- Witness for C3 at the same concrete input. -/
theorem claim_C3_witness :
    TcOutgoing.handle_incoming zero_credit_calc c3_tco c3_new =
      Except.error ReceiveMoveTokenError.InvalidStatedBalance := by
  have h := claim_C3 zero_credit_calc c3_tco c3_new
    ⟨0, ProcessOperationError.InsufficientTrust⟩
    (by decide) (by decide) (by decide) (by decide) (by decide)
  exact h.trans (by decide)

/-! ### Claim C5 (genesis synchronization) -/

/-- The first genuinely new move token sent by the side that starts
`Incoming` (public key 2, against public key 1), with nonce 7, as built by
`TcIncoming::create_friend_move_token`. -/
def c5_b_first_token : MoveToken :=
  match (TokenChannel.new 2 1).direction with
  | TcDirection.incoming tc_incoming =>
      tc_incoming.create_friend_move_token [] 7 2
  | TcDirection.outgoing tc_outgoing => tc_outgoing.move_token_out

/-- C5: at the concrete distinct keys 1 and 2 (key 1 having the lower
hash), the direction assignment is as claimed, but the two sides' genesis
move tokens do NOT share a chain head: each side pads its own peer's key, so
`get_new_token()` differs, and the first genuinely new move token from the
`Incoming` side (key 2) is rejected by the `Outgoing` side (key 1) as a
`ChainInconsistency` instead of chain-linking. -/
theorem claim_C5 :
    (TokenChannel.new 1 2).is_outgoing = true ∧
    (TokenChannel.new 2 1).is_outgoing = false ∧
    (TokenChannel.new 1 2).get_new_token ≠
      (TokenChannel.new 2 1).get_new_token ∧
    TokenChannel.simulate_receive_move_token zero_credit_calc
      (TokenChannel.new 1 2) c5_b_first_token =
      Except.error ReceiveMoveTokenError.ChainInconsistency := by
  refine ⟨by decide, by decide, by decide, by decide⟩

/-! ### Claim C6 (balances after an agreed reset)

`ResetTerms { reset_token, inconsistency_counter, balance_for_reset }`. -/

/-- `ResetTerms`. -/
structure ResetTerms where
  reset_token : Signature
  inconsistency_counter : Nat
  balance_for_reset : Int
  deriving DecidableEq

/-- The reset terms `T` of the C6 scenario, issued by the node with public
key 1: `balance_for_reset = 5` (key 1's own view of the conservative reset
balance). -/
def c6_terms : ResetTerms :=
  { reset_token := Data.resetToken 9
    inconsistency_counter := 1
    balance_for_reset := 5 }

/-- The peer's (key 2's) reset move token for `c6_terms`: old token equals
the reset token, no operations, counters and balance as agreed, validly
signed by key 2 — exactly what `try_reset_channel` accepts. -/
def c6_reset_move_token : MoveToken :=
  FriendMoveToken.new [] (Data.resetToken 9) 1 0 5 0 0 11 2

/-- C6 at the failing input `T.balance_for_reset = 5`: the issuer (key 1)
reconstructs via `new_from_remote_reset` with balance
`T.balance_for_reset`, and the peer (key 2) reconstructs via
`FriendMutation::LocalReset` / `new_from_local_reset`, also with balance
`T.balance_for_reset` (no negation anywhere on the path): both sides end
with balance `+5`, so the two `balance_for_reset` values sum to `10`, not
`0` — the no-phantom-credit invariant is broken by the reset. -/
theorem claim_C6 :
    (TokenChannel.new_from_remote_reset 1 2 c6_reset_move_token
      c6_terms.balance_for_reset).get_mutual_credit.balance_for_reset = 5 ∧
    (TokenChannel.new_from_local_reset 2 1 c6_reset_move_token
      c6_terms.balance_for_reset
      none).get_mutual_credit.balance_for_reset = 5 ∧
    (TokenChannel.new_from_remote_reset 1 2 c6_reset_move_token
      c6_terms.balance_for_reset).get_mutual_credit.balance_for_reset +
      (TokenChannel.new_from_local_reset 2 1 c6_reset_move_token
        c6_terms.balance_for_reset
        none).get_mutual_credit.balance_for_reset ≠ 0 := by
  refine ⟨by decide, by decide, by decide⟩

/-! ## `components/funder/src/handler/handle_friend.rs`

The handler state is the part of `FunderState` that `handle_friend.rs`
touches: the local public key and the per-friend states (each with its
channel status and the three pending queues).  The friend map is an
association list in insertion order.  The helpers `cancel_pending_requests`,
`cancel_pending_user_requests` and `find_request_origin` live in handler
files absent from src and are modelled from the spec (§4.4, §9). -/

/-- `HandleFriendError`. -/
inductive HandleFriendError where
  | FriendDoesNotExist : HandleFriendError
  | NoMoveTokenToAck : HandleFriendError
  | AlreadyAcked : HandleFriendError
  | TokenNotOwned : HandleFriendError
  | IncorrectAckedToken : HandleFriendError
  | IncorrectLastToken : HandleFriendError
  | TokenChannelInconsistent : HandleFriendError
  | NotInconsistent : HandleFriendError
  | ResetTokenMismatch : HandleFriendError
  | InconsistencyWhenTokenOwned : HandleFriendError
  deriving DecidableEq, Repr

/-- `ResponseOp`: a queued response-like operation. -/
inductive ResponseOp where
  | response : ResponseSendFunds → ResponseOp
  | unsignedResponse : PendingRequest → ResponseOp
  | failure : FailureSendFunds → ResponseOp
  | unsignedFailure : PendingRequest → ResponseOp
  deriving DecidableEq

/-- `ChannelInconsistent { opt_last_incoming_move_token, local_reset_terms,
opt_remote_reset_terms }`. -/
structure ChannelInconsistent where
  opt_last_incoming_move_token : Option MoveToken
  local_reset_terms : ResetTerms
  opt_remote_reset_terms : Option ResetTerms
  deriving DecidableEq

/-- `ChannelStatus`. -/
inductive ChannelStatus where
  | consistent : TokenChannel → ChannelStatus
  | inconsistent : ChannelInconsistent → ChannelStatus
  deriving DecidableEq

/-- The per-friend state as used by `handle_friend.rs` (remote address
modelled as `Nat`; liveness/status flags and `sent_local_address` are not
touched by the paths under verification and are omitted). -/
structure FriendState where
  remote_address : Nat
  channel_status : ChannelStatus
  pending_requests : List RequestSendFunds
  pending_responses : List ResponseOp
  pending_user_requests : List RequestSendFunds
  deriving DecidableEq

/-- The funder state as used by `handle_friend.rs`: local public key and the
friend map (association list in insertion order). -/
structure FunderState where
  local_public_key : PublicKey
  friends : List (PublicKey × FriendState)
  deriving DecidableEq

/-- Association-list lookup of a friend. -/
def friends_lookup (pk : PublicKey) :
    List (PublicKey × FriendState) → Option FriendState
  | [] => none
  | kv :: rest => if kv.1 = pk then some kv.2 else friends_lookup pk rest

/-- Association-list in-place update of a friend (all entries of that key). -/
def friends_update (pk : PublicKey) (f : FriendState → FriendState) :
    List (PublicKey × FriendState) → List (PublicKey × FriendState)
  | [] => []
  | kv :: rest =>
      (if kv.1 = pk then (kv.1, f kv.2) else kv) :: friends_update pk f rest

/-- `get_friend`. -/
def get_friend (s : FunderState) (pk : PublicKey) : Option FriendState :=
  friends_lookup pk s.friends

/-- Apply a per-friend mutation through `apply_funder_mutation`. -/
def update_friend (s : FunderState) (pk : PublicKey)
    (f : FriendState → FriendState) : FunderState :=
  { s with friends := friends_update pk f s.friends }

theorem friends_lookup_update_self (pk : PublicKey)
    (f : FriendState → FriendState) (l : List (PublicKey × FriendState)) :
    friends_lookup pk (friends_update pk f l) =
      (friends_lookup pk l).map f := by
  induction l with
  | nil => rfl
  | cons kv rest ih =>
      by_cases h : kv.1 = pk
      · simp [friends_lookup, friends_update, h]
      · simp [friends_lookup, friends_update, h, ih]

theorem friends_lookup_update_ne {pk pk' : PublicKey}
    (h : pk' ≠ pk) (f : FriendState → FriendState)
    (l : List (PublicKey × FriendState)) :
    friends_lookup pk' (friends_update pk f l) = friends_lookup pk' l := by
  induction l with
  | nil => rfl
  | cons kv rest ih =>
      by_cases hk : kv.1 = pk
      · have hne : pk ≠ pk' := fun hc => h hc.symm
        simp [friends_lookup, friends_update, hk, hne, ih]
      · by_cases hk' : kv.1 = pk'
        · subst hk'
          simp [friends_lookup, friends_update, hk]
        · simp [friends_lookup, friends_update, hk, hk', ih]

theorem get_friend_update_friend_self (s : FunderState) (pk : PublicKey)
    (f : FriendState → FriendState) :
    get_friend (update_friend s pk f) pk = (get_friend s pk).map f :=
  friends_lookup_update_self pk f s.friends

theorem get_friend_update_friend (s : FunderState) (pk pk' : PublicKey)
    (f : FriendState → FriendState) :
    get_friend (update_friend s pk f) pk' =
      if pk' = pk then (get_friend s pk').map f else get_friend s pk' := by
  by_cases h : pk' = pk
  · subst h
    simp [get_friend_update_friend_self]
  · simp [h]
    exact friends_lookup_update_ne h f s.friends

/-- `MoveTokenRequest { friend_move_token, token_wanted }`. -/
structure MoveTokenRequest where
  friend_move_token : MoveToken
  token_wanted : Bool
  deriving DecidableEq

/-- `FriendMessage`. -/
inductive FriendMessage where
  | moveTokenRequest : MoveTokenRequest → FriendMessage
  | inconsistencyError : ResetTerms → FriendMessage
  deriving DecidableEq

/-- Does this friend's consistent channel hold `uid` among the requests the
remote side forwarded to us (`pending_remote_requests`)? -/
def friend_holds_remote_pending (f : FriendState) (uid : Nat) : Bool :=
  match f.channel_status with
  | ChannelStatus.consistent tc =>
      (uidLookup uid tc.get_mutual_credit.pending_remote_requests).isSome
  | ChannelStatus.inconsistent _ => false

/-- Modelled from the spec: `find_request_origin` (§9 "origin lookup for a
received response scans friend pending maps"): the first friend whose
channel holds `uid` in `pending_remote_requests`. -/
def find_request_origin (s : FunderState) (uid : Nat) : Option PublicKey :=
  (s.friends.find? (fun kv => friend_holds_remote_pending kv.2 uid)).map (·.1)

/-- One step of request cancellation: the dropped request is turned into an
unsigned failure response queued at its origin friend; a request with no
origin (we are the payer) only produces an outgoing control message, which
is not part of `FunderState`. -/
def cancel_one_request (st : FunderState) (req : RequestSendFunds) :
    FunderState :=
  match find_request_origin st req.request_id with
  | none => st
  | some origin =>
      update_friend st origin (fun f =>
        { f with pending_responses :=
            f.pending_responses ++
              [ResponseOp.unsignedFailure (create_pending_request req)] })

/-- Modelled from the spec: `cancel_pending_requests(friend_pk)` (§4.4):
drain the friend's `pending_requests`, originating a failure toward each
request's origin.  (The source unwraps the friend; callers guarantee it
exists, and on a missing friend this model leaves the state unchanged.) -/
def cancel_pending_requests (s : FunderState) (pk : PublicKey) :
    FunderState :=
  match get_friend s pk with
  | none => s
  | some friend =>
      let s1 := update_friend s pk (fun f => { f with pending_requests := [] })
      friend.pending_requests.foldl cancel_one_request s1

/-- Modelled from the spec: `cancel_pending_user_requests(friend_pk)`
(§4.4): drain the friend's `pending_user_requests`; each dropped request is
reported to the user through an outgoing control message (no further
`FunderState` change). -/
def cancel_pending_user_requests (s : FunderState) (pk : PublicKey) :
    FunderState :=
  update_friend s pk (fun f => { f with pending_user_requests := [] })

/-- `gen_reset_terms`: a fresh random reset token (the random 32 bytes are
the `rng` argument), wrapping-incremented inconsistency counter, and the
conservative reset balance. -/
def gen_reset_terms (rng : Nat) (token_channel : TokenChannel) : ResetTerms :=
  { reset_token := Data.resetToken rng
    inconsistency_counter :=
      (token_channel.get_inconsistency_counter + 1) % 2 ^ 64
    balance_for_reset :=
      token_channel.get_mutual_credit.balance_for_reset }

/-- `try_reset_channel`: accept the incoming move token as a channel reset
exactly when it matches our local reset terms (old token = reset token, no
operations, no address update, agreed counters and balance, zero stated
debts, valid signature); on match, set the channel consistent via
`new_from_remote_reset`; otherwise leave the state unchanged. -/
def try_reset_channel (s : FunderState) (friend_public_key : PublicKey)
    (local_reset_terms : ResetTerms) (move_token : MoveToken) : FunderState :=
  if move_token.old_token ≠ local_reset_terms.reset_token ∨
     move_token.operations ≠ [] ∨
     move_token.opt_local_address.isSome ∨
     move_token.inconsistency_counter ≠
       local_reset_terms.inconsistency_counter ∨
     move_token.move_token_counter ≠ 0 ∨
     move_token.balance ≠ local_reset_terms.balance_for_reset ∨
     move_token.local_pending_debt ≠ 0 ∨
     move_token.remote_pending_debt ≠ 0 ∨
     ¬ verify_move_token move_token friend_public_key then
    s
  else
    update_friend s friend_public_key (fun f =>
      { f with channel_status := (ChannelStatus.consistent
          (TokenChannel.new_from_remote_reset s.local_public_key
            friend_public_key move_token
            local_reset_terms.balance_for_reset)) })

/-- `handle_inconsistency_error`: check the friend exists; cancel its
pending and pending user requests; then — only after the cancellations — if
the channel is consistent and the direction is Incoming
(`!token_channel.is_outgoing()`), reject with `InconsistencyWhenTokenOwned`;
otherwise merge the remote reset terms into an `Inconsistent` channel
status.  (`set_try_send` only touches ephemeral send flags and is not part
of `FunderState`.)  The source re-unwraps the friend after the
cancellations; cancellation preserves the friend set, so the `none` branch
of the second lookup is unreachable. -/
def handle_inconsistency_error (rng : Nat) (s : FunderState)
    (remote_public_key : PublicKey) (remote_reset_terms : ResetTerms) :
    Except HandleFriendError Unit × FunderState :=
  match get_friend s remote_public_key with
  | none => (Except.error HandleFriendError.FriendDoesNotExist, s)
  | some _ =>
    let s1 := cancel_pending_user_requests
      (cancel_pending_requests s remote_public_key) remote_public_key
    match get_friend s1 remote_public_key with
    | none => (Except.error HandleFriendError.FriendDoesNotExist, s1)
    | some friend =>
      match friend.channel_status with
      | ChannelStatus.consistent token_channel =>
          if ¬ token_channel.is_outgoing then
            (Except.error HandleFriendError.InconsistencyWhenTokenOwned, s1)
          else
            (Except.ok (),
             update_friend s1 remote_public_key (fun f =>
               { f with channel_status := (ChannelStatus.inconsistent
                   { opt_last_incoming_move_token :=
                       token_channel.get_last_incoming_move_token
                     local_reset_terms := gen_reset_terms rng token_channel
                     opt_remote_reset_terms := some remote_reset_terms }) }))
      | ChannelStatus.inconsistent channel_inconsistent =>
          (Except.ok (),
           update_friend s1 remote_public_key (fun f =>
             { f with channel_status := (ChannelStatus.inconsistent
                 { opt_last_incoming_move_token :=
                     channel_inconsistent.opt_last_incoming_move_token
                   local_reset_terms :=
                     channel_inconsistent.local_reset_terms
                   opt_remote_reset_terms := some remote_reset_terms }) }))

/-- `handle_move_token_request`: check the friend exists; if the channel is
inconsistent, run `try_reset_channel` and return `Ok(())`; otherwise run
`simulate_receive_move_token` and hand its result to the success/error
continuation (`handle_move_token_success` / `handle_move_token_error`,
which mutate state but cannot return an error — the theorem quantifies over
an arbitrary continuation `cont`). -/
def handle_move_token_request (cc : CreditCalc)
    (cont : FunderState → PublicKey →
      Except ReceiveMoveTokenError ReceiveMoveTokenOutput → Bool →
      FunderState)
    (s : FunderState) (remote_public_key : PublicKey)
    (friend_move_token_request : MoveTokenRequest) :
    Except HandleFriendError Unit × FunderState :=
  match get_friend s remote_public_key with
  | none => (Except.error HandleFriendError.FriendDoesNotExist, s)
  | some friend =>
    match friend.channel_status with
    | ChannelStatus.inconsistent channel_inconsistent =>
        (Except.ok (),
         try_reset_channel s remote_public_key
           channel_inconsistent.local_reset_terms
           friend_move_token_request.friend_move_token)
    | ChannelStatus.consistent token_channel =>
        (Except.ok (),
         cont s remote_public_key
           (token_channel.simulate_receive_move_token cc
             friend_move_token_request.friend_move_token)
           friend_move_token_request.token_wanted)

/-- `handle_friend_message`: check the friend exists, then dispatch. -/
def handle_friend_message (cc : CreditCalc)
    (cont : FunderState → PublicKey →
      Except ReceiveMoveTokenError ReceiveMoveTokenOutput → Bool →
      FunderState)
    (rng : Nat) (s : FunderState) (remote_public_key : PublicKey)
    (friend_message : FriendMessage) :
    Except HandleFriendError Unit × FunderState :=
  match get_friend s remote_public_key with
  | none => (Except.error HandleFriendError.FriendDoesNotExist, s)
  | some _ =>
    match friend_message with
    | FriendMessage.moveTokenRequest friend_move_token_request =>
        handle_move_token_request cc cont s remote_public_key
          friend_move_token_request
    | FriendMessage.inconsistencyError remote_reset_terms =>
        handle_inconsistency_error rng s remote_public_key remote_reset_terms

/-! ### Cancellation preserves each friend's channel status -/

theorem channel_status_cancel_one (st : FunderState)
    (req : RequestSendFunds) (pk : PublicKey) :
    (get_friend (cancel_one_request st req) pk).map
        (fun f => f.channel_status) =
      (get_friend st pk).map (fun f => f.channel_status) := by
  unfold cancel_one_request
  cases hfo : find_request_origin st req.request_id with
  | none => rfl
  | some origin =>
      rw [get_friend_update_friend]
      by_cases h : pk = origin
      · rw [if_pos h]
        cases get_friend st pk <;> rfl
      · rw [if_neg h]

theorem channel_status_cancel_fold (q : List RequestSendFunds)
    (st : FunderState) (pk : PublicKey) :
    (get_friend (q.foldl cancel_one_request st) pk).map
        (fun f => f.channel_status) =
      (get_friend st pk).map (fun f => f.channel_status) := by
  induction q generalizing st with
  | nil => rfl
  | cons req rest ih =>
      rw [List.foldl_cons, ih, channel_status_cancel_one]

theorem channel_status_cancel_pending_requests (s : FunderState)
    (x pk : PublicKey) :
    (get_friend (cancel_pending_requests s x) pk).map
        (fun f => f.channel_status) =
      (get_friend s pk).map (fun f => f.channel_status) := by
  unfold cancel_pending_requests
  cases hg : get_friend s x with
  | none => rfl
  | some friend =>
      rw [channel_status_cancel_fold, get_friend_update_friend]
      by_cases h : pk = x
      · rw [if_pos h]
        cases get_friend s pk <;> rfl
      · rw [if_neg h]

theorem channel_status_cancel_pending_user_requests (s : FunderState)
    (x pk : PublicKey) :
    (get_friend (cancel_pending_user_requests s x) pk).map
        (fun f => f.channel_status) =
      (get_friend s pk).map (fun f => f.channel_status) := by
  unfold cancel_pending_user_requests
  rw [get_friend_update_friend]
  by_cases h : pk = x
  · rw [if_pos h]
    cases get_friend s pk <;> rfl
  · rw [if_neg h]

/-! ### Claim C1 (who may send an InconsistencyError) -/

/-- C1 (amended): for an existing friend with a `Consistent` channel,
`handle_inconsistency_error` returns `InconsistencyWhenTokenOwned` exactly
when the direction is `Incoming` (the state from which the local side sends
the next move token, i.e. in which the code considers the token locally
owned); when the direction is `Outgoing` the message is accepted: no error,
and the remote reset terms are merged into an `Inconsistent` channel
status. -/
theorem claim_C1 (rng : Nat) (s : FunderState) (pk : PublicKey)
    (terms : ResetTerms) (friend : FriendState) (tc : TokenChannel)
    (hf : get_friend s pk = some friend)
    (hc : friend.channel_status = ChannelStatus.consistent tc) :
    (((handle_inconsistency_error rng s pk terms).1 =
        Except.error HandleFriendError.InconsistencyWhenTokenOwned) ↔
      tc.is_outgoing = false) ∧
    (tc.is_outgoing = true →
      (handle_inconsistency_error rng s pk terms).1 = Except.ok () ∧
      ((get_friend (handle_inconsistency_error rng s pk terms).2 pk).map
          (fun f => f.channel_status)) =
        some (ChannelStatus.inconsistent
          { opt_last_incoming_move_token := tc.get_last_incoming_move_token
            local_reset_terms := gen_reset_terms rng tc
            opt_remote_reset_terms := some terms })) := by
  have hch : (get_friend (cancel_pending_user_requests
      (cancel_pending_requests s pk) pk) pk).map
      (fun f => f.channel_status) = some (ChannelStatus.consistent tc) := by
    rw [channel_status_cancel_pending_user_requests,
      channel_status_cancel_pending_requests, hf]
    simp [hc]
  obtain ⟨friend', hf', hc'⟩ : ∃ f',
      get_friend (cancel_pending_user_requests
        (cancel_pending_requests s pk) pk) pk = some f' ∧
      f'.channel_status = ChannelStatus.consistent tc := by
    cases hg : get_friend (cancel_pending_user_requests
        (cancel_pending_requests s pk) pk) pk with
    | none => rw [hg] at hch; exact absurd hch (by simp)
    | some f' =>
        rw [hg] at hch
        exact ⟨f', rfl, by simpa using hch⟩
  unfold handle_inconsistency_error
  rw [hf]
  simp only [hf', hc']
  cases hout : tc.is_outgoing with
  | false =>
      simp only [Bool.not_eq_true, Bool.false_eq_true, not_false_eq_true,
        if_true, ite_true, reduceIte]
      exact ⟨by simp, fun hbad => absurd hbad (by simp)⟩
  | true =>
      simp only [Bool.not_eq_true, Bool.true_eq_false, not_true_eq_false,
        if_false, ite_false, reduceIte]
      refine ⟨by simp, fun _ => ⟨by simp, ?_⟩⟩
      rw [get_friend_update_friend_self, hf']
      rfl

/-- Friend public key 2's channel for the C1 witness: our key 1 has the
lower hash, so `TokenChannel::new(1, 2)` starts `Outgoing`. -/
def c1_channel : TokenChannel := TokenChannel.new 1 2

/-- The C1 witness friend (consistent outgoing channel, empty queues). -/
def c1_friend : FriendState :=
  { remote_address := 0
    channel_status := ChannelStatus.consistent c1_channel
    pending_requests := []
    pending_responses := []
    pending_user_requests := [] }

/-- The C1 witness funder state (local key 1, one friend: key 2). -/
def c1_state : FunderState :=
  { local_public_key := 1, friends := [(2, c1_friend)] }

/-- Remote reset terms used in the C1 scenarios. -/
def c1_terms : ResetTerms :=
  { reset_token := Data.resetToken 4
    inconsistency_counter := 3
    balance_for_reset := 0 }

/-- Counterexample to C1 as stated: the channel is `Consistent` and
`Outgoing`, yet handling the incoming `InconsistencyError` succeeds
(`Ok(())`) instead of returning `InconsistencyWhenTokenOwned`. -/
theorem claim_C1_counterexample :
    c1_channel.is_outgoing = true ∧
    (handle_inconsistency_error 0 c1_state 2 c1_terms).1 = Except.ok () := by
  exact ⟨by decide, by decide⟩

/-- Witness for C1 at the concrete outgoing-channel state. -/
theorem claim_C1_witness :
    (handle_inconsistency_error 0 c1_state 2 c1_terms).1 = Except.ok () ∧
    ((get_friend (handle_inconsistency_error 0 c1_state 2 c1_terms).2 2).map
        (fun f => f.channel_status)) =
      some (ChannelStatus.inconsistent
        { opt_last_incoming_move_token :=
            c1_channel.get_last_incoming_move_token
          local_reset_terms := gen_reset_terms 0 c1_channel
          opt_remote_reset_terms := some c1_terms }) :=
  (claim_C1 0 c1_state 2 c1_terms c1_friend c1_channel (by decide) rfl).2
    (by decide)

/-! ### Claim C2 (state on a HandleFriendError) -/

/-- C2 (amended): when handling a friend message returns an error, a
`FriendDoesNotExist` error leaves the state unchanged, but an
`InconsistencyWhenTokenOwned` error is returned only after the friend's
pending requests and pending user requests have been cancelled: the
resulting state is the double cancellation of the incoming state, not the
incoming state itself. -/
theorem claim_C2 (cc : CreditCalc)
    (cont : FunderState → PublicKey →
      Except ReceiveMoveTokenError ReceiveMoveTokenOutput → Bool →
      FunderState)
    (rng : Nat) (s : FunderState) (pk : PublicKey) (msg : FriendMessage)
    (e : HandleFriendError)
    (h : (handle_friend_message cc cont rng s pk msg).1 = Except.error e) :
    (e = HandleFriendError.FriendDoesNotExist →
      (handle_friend_message cc cont rng s pk msg).2 = s) ∧
    (e = HandleFriendError.InconsistencyWhenTokenOwned →
      (handle_friend_message cc cont rng s pk msg).2 =
        cancel_pending_user_requests (cancel_pending_requests s pk) pk) := by
  unfold handle_friend_message at h ⊢
  cases hg : get_friend s pk with
  | none =>
      rw [hg] at h
      have he : HandleFriendError.FriendDoesNotExist = e := Except.error.inj h
      cases he
      exact ⟨fun _ => rfl, fun hbad => absurd hbad (by decide)⟩
  | some friend =>
    rw [hg] at h
    cases msg with
    | moveTokenRequest mtr =>
        exfalso
        have h' : (handle_move_token_request cc cont s pk mtr).1 =
            Except.error e := h
        unfold handle_move_token_request at h'
        rw [hg] at h'
        cases hcs : friend.channel_status with
        | consistent tc =>
            simp only [hcs] at h'
            exact Except.noConfusion h'
        | inconsistent ci =>
            simp only [hcs] at h'
            exact Except.noConfusion h'
    | inconsistencyError terms =>
        have h' : (handle_inconsistency_error rng s pk terms).1 =
            Except.error e := h
        show (e = HandleFriendError.FriendDoesNotExist →
            (handle_inconsistency_error rng s pk terms).2 = s) ∧
          (e = HandleFriendError.InconsistencyWhenTokenOwned →
            (handle_inconsistency_error rng s pk terms).2 =
              cancel_pending_user_requests
                (cancel_pending_requests s pk) pk)
        have hpres : (get_friend (cancel_pending_user_requests
            (cancel_pending_requests s pk) pk) pk).map
            (fun f => f.channel_status) =
            some friend.channel_status := by
          rw [channel_status_cancel_pending_user_requests,
            channel_status_cancel_pending_requests, hg]
          rfl
        obtain ⟨friend', hf', hc'⟩ : ∃ f',
            get_friend (cancel_pending_user_requests
              (cancel_pending_requests s pk) pk) pk = some f' ∧
            f'.channel_status = friend.channel_status := by
          cases hg' : get_friend (cancel_pending_user_requests
              (cancel_pending_requests s pk) pk) pk with
          | none => rw [hg'] at hpres; exact absurd hpres (by simp)
          | some f' =>
              rw [hg'] at hpres
              exact ⟨f', rfl, by simpa using hpres⟩
        unfold handle_inconsistency_error at h' ⊢
        rw [hg] at h' ⊢
        simp only [hf', hc'] at h' ⊢
        cases hcs : friend.channel_status with
        | consistent tc =>
            cases hout : tc.is_outgoing with
            | false =>
                simp only [hcs, hout, Bool.not_eq_true, Bool.false_eq_true,
                  not_false_eq_true, if_true, ite_true, reduceIte] at h' ⊢
                have he : HandleFriendError.InconsistencyWhenTokenOwned = e :=
                  Except.error.inj h'
                cases he
                exact ⟨fun hbad => absurd hbad (by decide), fun _ => by simp⟩
            | true =>
                simp only [hcs, hout, Bool.not_eq_true, Bool.true_eq_false,
                  not_true_eq_false, if_false, ite_false, reduceIte] at h'
                exact Except.noConfusion h'
        | inconsistent ci =>
            simp only [hcs] at h'
            exact Except.noConfusion h'

/-- Friend public key 2's channel for the C2 counterexample: our key 3 does
not have the lower hash, so `TokenChannel::new(3, 2)` starts `Incoming`. -/
def c2_channel : TokenChannel := TokenChannel.new 3 2

/-- A user request queued toward friend 2. -/
def c2_request : RequestSendFunds :=
  { request_id := 8, route := [3, 2, 4], dest_payment := 1, invoice_id := 0
    freeze_links := [] }

/-- The C2 friend: consistent `Incoming` channel and one queued pending
user request. -/
def c2_friend : FriendState :=
  { remote_address := 0
    channel_status := ChannelStatus.consistent c2_channel
    pending_requests := []
    pending_responses := []
    pending_user_requests := [c2_request] }

/-- The C2 funder state. -/
def c2_state : FunderState :=
  { local_public_key := 3, friends := [(2, c2_friend)] }

/-- Remote reset terms used in the C2 scenario. -/
def c2_terms : ResetTerms :=
  { reset_token := Data.resetToken 1
    inconsistency_counter := 0
    balance_for_reset := 0 }

/-- Counterexample to C2 as stated: handling the `InconsistencyError`
returns `InconsistencyWhenTokenOwned`, yet the state after the call differs
from the state before it (the queued pending user request was cancelled
before the error was returned). -/
theorem claim_C2_counterexample :
    (handle_friend_message zero_credit_calc (fun st _ _ _ => st) 0 c2_state 2
      (FriendMessage.inconsistencyError c2_terms)).1 =
      Except.error HandleFriendError.InconsistencyWhenTokenOwned ∧
    (handle_friend_message zero_credit_calc (fun st _ _ _ => st) 0 c2_state 2
      (FriendMessage.inconsistencyError c2_terms)).2 ≠ c2_state := by
  exact ⟨by decide, by decide⟩

/-- Witness for C2 at the concrete `Incoming`-channel state. -/
theorem claim_C2_witness :
    (handle_friend_message zero_credit_calc (fun st _ _ _ => st) 0 c2_state 2
      (FriendMessage.inconsistencyError c2_terms)).2 =
      cancel_pending_user_requests (cancel_pending_requests c2_state 2) 2 :=
  (claim_C2 zero_credit_calc (fun st _ _ _ => st) 0 c2_state 2
    (FriendMessage.inconsistencyError c2_terms)
    HandleFriendError.InconsistencyWhenTokenOwned (by decide)).2 rfl

/-! ### Claim C7 (try-reset on an inconsistent channel) -/

/-- The acceptance condition of `try_reset_channel` in positive form: the
incoming move token exactly matches our local reset terms. -/
def reset_move_token_matches (t : ResetTerms) (mt : MoveToken)
    (pk : PublicKey) : Prop :=
  mt.old_token = t.reset_token ∧ mt.operations = [] ∧
  mt.opt_local_address = none ∧
  mt.inconsistency_counter = t.inconsistency_counter ∧
  mt.move_token_counter = 0 ∧ mt.balance = t.balance_for_reset ∧
  mt.local_pending_debt = 0 ∧ mt.remote_pending_debt = 0 ∧
  verify_move_token mt pk = true

instance (t : ResetTerms) (mt : MoveToken) (pk : PublicKey) :
    Decidable (reset_move_token_matches t mt pk) := by
  unfold reset_move_token_matches
  infer_instance

theorem try_reset_channel_eq (s : FunderState) (pk : PublicKey)
    (t : ResetTerms) (mt : MoveToken) :
    try_reset_channel s pk t mt =
      if reset_move_token_matches t mt pk then
        update_friend s pk (fun f =>
          { f with channel_status := (ChannelStatus.consistent
              (TokenChannel.new_from_remote_reset s.local_public_key pk mt
                t.balance_for_reset)) })
      else s := by
  unfold try_reset_channel
  have hiff : (mt.old_token ≠ t.reset_token ∨ mt.operations ≠ [] ∨
      mt.opt_local_address.isSome ∨
      mt.inconsistency_counter ≠ t.inconsistency_counter ∨
      mt.move_token_counter ≠ 0 ∨ mt.balance ≠ t.balance_for_reset ∨
      mt.local_pending_debt ≠ 0 ∨ mt.remote_pending_debt ≠ 0 ∨
      ¬ verify_move_token mt pk) ↔ ¬ reset_move_token_matches t mt pk := by
    unfold reset_move_token_matches
    rw [Option.isSome_iff_ne_none]
    tauto
  rw [if_congr hiff rfl rfl, ite_not]

/-- C7: for an existing friend whose channel is `Inconsistent`,
`handle_move_token_request` always returns `Ok(())` with the state produced
by `try_reset_channel`; the channel becomes `Consistent` — an `Incoming`
channel built by `new_from_remote_reset` with balance
`local_reset_terms.balance_for_reset` — exactly when the move token matches
the local reset terms (old token, empty operations, no address update,
agreed counters and balance, zero stated debts, valid signature); any other
move token leaves the state unchanged. -/
theorem claim_C7 (cc : CreditCalc)
    (cont : FunderState → PublicKey →
      Except ReceiveMoveTokenError ReceiveMoveTokenOutput → Bool →
      FunderState)
    (s : FunderState) (pk : PublicKey) (mtr : MoveTokenRequest)
    (friend : FriendState) (ci : ChannelInconsistent)
    (hf : get_friend s pk = some friend)
    (hc : friend.channel_status = ChannelStatus.inconsistent ci) :
    handle_move_token_request cc cont s pk mtr =
      (Except.ok (), try_reset_channel s pk ci.local_reset_terms
        mtr.friend_move_token) ∧
    (reset_move_token_matches ci.local_reset_terms mtr.friend_move_token pk ↔
      ((get_friend (handle_move_token_request cc cont s pk mtr).2 pk).map
          (fun f => f.channel_status)) =
        some (ChannelStatus.consistent (TokenChannel.new_from_remote_reset
          s.local_public_key pk mtr.friend_move_token
          ci.local_reset_terms.balance_for_reset))) ∧
    (¬ reset_move_token_matches ci.local_reset_terms mtr.friend_move_token
        pk →
      (handle_move_token_request cc cont s pk mtr).2 = s) := by
  have hres : handle_move_token_request cc cont s pk mtr =
      (Except.ok (), try_reset_channel s pk ci.local_reset_terms
        mtr.friend_move_token) := by
    unfold handle_move_token_request
    rw [hf]
    simp only [hc]
  refine ⟨hres, ?_, ?_⟩
  · rw [hres, try_reset_channel_eq]
    by_cases hm : reset_move_token_matches ci.local_reset_terms
        mtr.friend_move_token pk
    · rw [if_pos hm]
      constructor
      · intro _
        rw [get_friend_update_friend_self, hf]
        rfl
      · intro _
        exact hm
    · rw [if_neg hm]
      constructor
      · intro hcontra
        exact absurd hcontra hm
      · intro heq
        rw [hf] at heq
        simp [hc] at heq
  · intro hm
    rw [hres, try_reset_channel_eq, if_neg hm]

/-- Local reset terms of the C7 witness. -/
def c7_terms : ResetTerms :=
  { reset_token := Data.resetToken 13
    inconsistency_counter := 2
    balance_for_reset := 7 }

/-- A reset move token matching `c7_terms`, validly signed by friend 2. -/
def c7_move_token : MoveToken :=
  FriendMoveToken.new [] (Data.resetToken 13) 2 0 7 0 0 21 2

/-- The inconsistent channel state of the C7 witness. -/
def c7_ci : ChannelInconsistent :=
  { opt_last_incoming_move_token := none
    local_reset_terms := c7_terms
    opt_remote_reset_terms := some c7_terms }

/-- The C7 witness friend. -/
def c7_friend : FriendState :=
  { remote_address := 0
    channel_status := ChannelStatus.inconsistent c7_ci
    pending_requests := []
    pending_responses := []
    pending_user_requests := [] }

/-- The C7 witness funder state. -/
def c7_state : FunderState :=
  { local_public_key := 1, friends := [(2, c7_friend)] }

/-- The C7 witness move-token request. -/
def c7_mtr : MoveTokenRequest :=
  { friend_move_token := c7_move_token, token_wanted := false }

/-- Witness for C7: at a concrete matching reset move token the call
returns `Ok(())` and the channel becomes `Consistent` via
`new_from_remote_reset` with the agreed balance. -/
theorem claim_C7_witness :
    handle_move_token_request zero_credit_calc (fun st _ _ _ => st) c7_state
      2 c7_mtr =
      (Except.ok (), try_reset_channel c7_state 2 c7_terms c7_move_token) ∧
    ((get_friend (handle_move_token_request zero_credit_calc
        (fun st _ _ _ => st) c7_state 2 c7_mtr).2 2).map
        (fun f => f.channel_status)) =
      some (ChannelStatus.consistent (TokenChannel.new_from_remote_reset 1 2
        c7_move_token 7)) :=
  have h := claim_C7 zero_credit_calc (fun st _ _ _ => st) c7_state 2 c7_mtr
    c7_friend c7_ci (by decide) rfl
  ⟨h.1, h.2.1.mp (by decide)⟩

/-! ## `src/networker/messenger/cache.rs` (freeze guard, claim C9)

`total_frozen` is a map next-hop key → origin key → frozen `u64` credits.
`HashMap` equality is map (extensional) equality, so the maps are embedded
as Mathlib `Finmap`s.  `CreditCalculator` (in `credit_calc.rs`, absent from
src) is, per the spec, an opaque deterministic pure function of the request;
it is threaded through as the `credits` argument, `credits i` standing for
`credit_calc.credits_to_freeze(i)`; `add_frozen_credit` and
`sub_frozen_credit` construct it from the same request fields, hence receive
the same `credits`. -/

/-- Inner map of the freeze guard: origin public key → frozen credits. -/
abbrev InnerFrozen := Finmap (fun _ : PublicKey => Nat)

/-- Outer map: next-hop public key → inner map. -/
abbrev TotalFrozen := Finmap (fun _ : PublicKey => InnerFrozen)

/-- `NeighborsRoute`: the ordered public keys of a route. -/
structure NeighborsRoute where
  public_keys : List PublicKey
  deriving DecidableEq

/-- Modelled from the spec: the route's destination is its last key. -/
def NeighborsRoute.dest_public_key (r : NeighborsRoute) : PublicKey :=
  r.public_keys.getLastD 0

/-- `pk_index`: position of the key on the route. -/
def NeighborsRoute.pk_index (r : NeighborsRoute) (pk : PublicKey) :
    Option Nat :=
  r.public_keys.indexOf? pk

/-- `pk_by_index`. -/
def NeighborsRoute.pk_by_index (r : NeighborsRoute) (i : Nat) :
    Option PublicKey :=
  r.public_keys.get? i

/-- `PendingNeighborRequest` (the fields beside the route only feed the
opaque `CreditCalculator`). -/
structure PendingNeighborRequest where
  route : NeighborsRoute
  request_content_len : Nat
  processing_fee_proposal : Nat
  max_response_len : Nat
  deriving DecidableEq

/-- `MessengerCache { local_public_key, total_frozen }`. -/
structure MessengerCache where
  local_public_key : PublicKey
  total_frozen : TotalFrozen
  deriving DecidableEq

/-- `u64::checked_add`. -/
def checked_add_u64 (a b : Nat) : Option Nat :=
  if a + b ≤ 2 ^ 64 - 1 then some (a + b) else none

/-- `u64::checked_sub`. -/
def checked_sub_u64 (a b : Nat) : Option Nat :=
  if b ≤ a then some (a - b) else none

/-- The loop of `add_frozen_credit` over the route prefix: each element is
`(origin key, credits_to_freeze(index+1))`; `entry(k).or_insert(0)` then
`checked_add(c).unwrap()` (`none` models the panic on overflow or on an
undefined credit value). -/
def addLoop : List (PublicKey × Option Nat) → InnerFrozen →
    Option InnerFrozen
  | [], m => some m
  | (pk, oc) :: rest, m =>
      match oc with
      | none => none
      | some c =>
          match checked_add_u64 ((m.lookup pk).getD 0) c with
          | none => none
          | some v => addLoop rest (m.insert pk v)

/-- The loop of `sub_frozen_credit`: `get_mut(k).unwrap()`,
`checked_sub(c).unwrap()`, and deletion of entries that reach zero. -/
def subLoop : List (PublicKey × Option Nat) → InnerFrozen →
    Option InnerFrozen
  | [], m => some m
  | (pk, oc) :: rest, m =>
      match oc with
      | none => none
      | some c =>
          match m.lookup pk with
          | none => none
          | some old =>
              match checked_sub_u64 old c with
              | none => none
              | some v =>
                  subLoop rest (if v = 0 then m.erase pk else m.insert pk v)

/-- The `(origin key, credit)` pairs of the loop over `0 .. my_index`. -/
def prefixEntries (credits : Nat → Option Nat) (route : NeighborsRoute)
    (my_index : Nat) : List (PublicKey × Option Nat) :=
  (route.public_keys.take my_index).enum.map
    (fun p => (p.2, credits (p.1 + 1)))

/-- `MessengerCache::add_frozen_credit` (`none` models a panic of one of the
`unwrap`s). -/
def add_frozen_credit (credits : Nat → Option Nat) (cache : MessengerCache)
    (pending_request : PendingNeighborRequest) : Option MessengerCache :=
  if cache.local_public_key = pending_request.route.dest_public_key then
    -- We are the destination. Nothing to do here.
    some cache
  else
    match pending_request.route.pk_index cache.local_public_key with
    | none => none
    | some my_index =>
      match pending_request.route.pk_by_index (my_index + 1) with
      | none => none
      | some next_public_key =>
        match addLoop (prefixEntries credits pending_request.route my_index)
            ((cache.total_frozen.lookup next_public_key).getD ∅) with
        | none => none
        | some m1 =>
            some { cache with
              total_frozen := cache.total_frozen.insert next_public_key m1 }

/-- `MessengerCache::sub_frozen_credit`. -/
def sub_frozen_credit (credits : Nat → Option Nat) (cache : MessengerCache)
    (pending_request : PendingNeighborRequest) : Option MessengerCache :=
  if cache.local_public_key = pending_request.route.dest_public_key then
    -- We are the destination. Nothing to do here.
    some cache
  else
    match pending_request.route.pk_index cache.local_public_key with
    | none => none
    | some my_index =>
      match pending_request.route.pk_by_index (my_index + 1) with
      | none => none
      | some next_public_key =>
        match cache.total_frozen.lookup next_public_key with
        | none => none
        | some neighbor_map =>
          match subLoop (prefixEntries credits pending_request.route my_index)
              neighbor_map with
          | none => none
          | some m1 =>
              some { cache with
                total_frozen :=
                  if m1 = ∅ then
                    cache.total_frozen.erase next_public_key
                  else cache.total_frozen.insert next_public_key m1 }

/-! ### Round-trip lemmas for the freeze-guard loops -/

theorem checked_add_u64_eq {a b v : Nat} (h : checked_add_u64 a b = some v) :
    v = a + b := by
  unfold checked_add_u64 at h
  split at h
  · exact (Option.some.inj h).symm
  · exact Option.noConfusion h

theorem checked_sub_u64_eq {a b v : Nat} (h : checked_sub_u64 a b = some v) :
    v = a - b ∧ b ≤ a := by
  unfold checked_sub_u64 at h
  split at h
  · exact ⟨(Option.some.inj h).symm, by assumption⟩
  · exact Option.noConfusion h

theorem assoc_lookup_eq_none {k : PublicKey} :
    ∀ (es : List (PublicKey × Option Nat)), k ∉ es.map Prod.fst →
      List.lookup k es = none := by
  intro es
  induction es with
  | nil => intro _; rfl
  | cons e rest ih =>
      intro hmem
      obtain ⟨a, b⟩ := e
      simp only [List.map_cons, List.mem_cons] at hmem
      push_neg at hmem
      have hne : (k == a) = false := beq_eq_false_iff_ne.mpr hmem.1
      simp only [List.lookup, hne]
      exact ih hmem.2

theorem addLoop_none_credit {k : PublicKey} :
    ∀ (es : List (PublicKey × Option Nat)) (m : InnerFrozen),
      List.lookup k es = some none → addLoop es m = none := by
  intro es
  induction es with
  | nil => intro m h; exact Option.noConfusion h
  | cons e rest ih =>
      intro m h
      obtain ⟨a, oc⟩ := e
      by_cases hak : k = a
      · subst hak
        simp only [List.lookup, beq_self_eq_true] at h
        have hoc : oc = none := Option.some.inj h
        subst hoc
        rfl
      · have hne : (k == a) = false := beq_eq_false_iff_ne.mpr hak
        simp only [List.lookup, hne] at h
        cases oc with
        | none => rfl
        | some c =>
            simp only [addLoop]
            cases checked_add_u64 ((m.lookup a).getD 0) c with
            | none => rfl
            | some v => exact ih _ h

theorem addLoop_lookup {k : PublicKey} :
    ∀ (es : List (PublicKey × Option Nat)), (es.map Prod.fst).Nodup →
    ∀ (m m1 : InnerFrozen), addLoop es m = some m1 →
      m1.lookup k =
        match List.lookup k es with
        | none => m.lookup k
        | some oc => some ((m.lookup k).getD 0 + oc.getD 0) := by
  intro es
  induction es with
  | nil =>
      intro _ m m1 h
      cases h
      rfl
  | cons e rest ih =>
      intro hnd m m1 h
      obtain ⟨a, oc⟩ := e
      simp only [List.map_cons, List.nodup_cons] at hnd
      cases oc with
      | none => exact Option.noConfusion h
      | some c =>
        simp only [addLoop] at h
        cases hadd : checked_add_u64 ((m.lookup a).getD 0) c with
        | none => rw [hadd] at h; exact Option.noConfusion h
        | some v =>
          rw [hadd] at h
          have hv := checked_add_u64_eq hadd
          have hrec := ih hnd.2 _ _ h
          by_cases hak : k = a
          · subst hak
            have hrest : List.lookup k rest = none :=
              assoc_lookup_eq_none rest hnd.1
            rw [hrest, Finmap.lookup_insert] at hrec
            simp only [List.lookup, beq_self_eq_true, Option.getD_some]
            rw [hrec]
            exact congrArg some hv
          · have hne : (k == a) = false := beq_eq_false_iff_ne.mpr hak
            rw [Finmap.lookup_insert_of_ne _ hak] at hrec
            simp only [List.lookup, hne]
            exact hrec

theorem subLoop_lookup {k : PublicKey} :
    ∀ (es : List (PublicKey × Option Nat)), (es.map Prod.fst).Nodup →
    ∀ (m m1 : InnerFrozen), subLoop es m = some m1 →
      m1.lookup k =
        match List.lookup k es with
        | none => m.lookup k
        | some oc =>
            match m.lookup k with
            | none => none
            | some v =>
                if v - oc.getD 0 = 0 then none else some (v - oc.getD 0) := by
  intro es
  induction es with
  | nil =>
      intro _ m m1 h
      cases h
      rfl
  | cons e rest ih =>
      intro hnd m m1 h
      obtain ⟨a, oc⟩ := e
      simp only [List.map_cons, List.nodup_cons] at hnd
      cases oc with
      | none => exact Option.noConfusion h
      | some c =>
        simp only [subLoop] at h
        cases hold : m.lookup a with
        | none => simp only [hold] at h; exact Option.noConfusion h
        | some old =>
          simp only [hold] at h
          cases hsub : checked_sub_u64 old c with
          | none => simp only [hsub] at h; exact Option.noConfusion h
          | some v =>
            simp only [hsub] at h
            have hrec := ih hnd.2 _ _ h
            by_cases hak : k = a
            · subst hak
              have hrest : List.lookup k rest = none :=
                assoc_lookup_eq_none rest hnd.1
              rw [hrest] at hrec
              have hlook :
                  (if v = 0 then m.erase k else m.insert k v).lookup k =
                    if v = 0 then none else some v := by
                by_cases hv : v = 0
                · simp [hv, Finmap.lookup_erase]
                · simp [hv, Finmap.lookup_insert]
              rw [hlook] at hrec
              have hvv := (checked_sub_u64_eq hsub).1
              simp only [List.lookup, beq_self_eq_true, hold,
                Option.getD_some]
              rw [hrec, hvv]
            · have hne : (k == a) = false := beq_eq_false_iff_ne.mpr hak
              have hlook :
                  (if v = 0 then m.erase a else m.insert a v).lookup k =
                    m.lookup k := by
                by_cases hv : v = 0
                · simp [hv, Finmap.lookup_erase_ne hak]
                · simp [hv, Finmap.lookup_insert_of_ne _ hak]
              rw [hlook] at hrec
              simp only [List.lookup, hne]
              exact hrec

/-- The inner round trip: over distinct origin keys, on an inner map whose
stored values are all nonzero, a successful `addLoop` followed by a
successful `subLoop` restores the inner map exactly. -/
theorem loops_roundtrip {es : List (PublicKey × Option Nat)}
    (hnd : (es.map Prod.fst).Nodup) {m m1 m2 : InnerFrozen}
    (hwf : ∀ k v, m.lookup k = some v → v ≠ 0)
    (ha : addLoop es m = some m1) (hs : subLoop es m1 = some m2) :
    m2 = m := by
  apply Finmap.ext_lookup
  intro k
  have h1 := addLoop_lookup es hnd m m1 ha (k := k)
  have h2 := subLoop_lookup es hnd m1 m2 hs (k := k)
  cases hk : List.lookup k es with
  | none =>
      rw [hk] at h1 h2
      rw [h2, h1]
  | some oc =>
      cases oc with
      | none =>
          rw [addLoop_none_credit es m hk] at ha
          exact Option.noConfusion ha
      | some c =>
          rw [hk] at h1 h2
          rw [h1] at h2
          cases hm : m.lookup k with
          | none =>
              rw [hm] at h2
              simpa using h2
          | some v =>
              rw [hm] at h2
              have hv := hwf k v hm
              simpa [Nat.add_sub_cancel, hv] using h2

theorem prefixEntries_keys (credits : Nat → Option Nat)
    (route : NeighborsRoute) (n : Nat) :
    (prefixEntries credits route n).map Prod.fst =
      route.public_keys.take n := by
  simp only [prefixEntries, List.map_map]
  have : (Prod.fst ∘ fun p : Nat × PublicKey => (p.2, credits (p.1 + 1))) =
      Prod.snd := by
    funext p
    rfl
  rw [this, List.enum_map_snd]

/-- Well-formedness of a freeze-guard state: stored submaps are nonempty
and stored credit entries are nonzero. -/
def frozen_wellformed (tf : TotalFrozen) : Prop :=
  ∀ n m, tf.lookup n = some m →
    m ≠ ∅ ∧ ∀ k v, m.lookup k = some v → v ≠ 0

/-- C9 (amended): on a route with no duplicate keys, and for a freeze-guard
state in which every stored submap is nonempty and every stored credit
entry is nonzero, a successful `add_frozen_credit` followed by a successful
`sub_frozen_credit` for the same pending request restores `total_frozen`
exactly: incremented entries are decremented back, entries reaching zero
and submaps becoming empty are deleted.  (Without the well-formedness
condition exactness fails: see the counterexample, where a reachable state
holding an empty submap at the next hop is not restored.) -/
theorem claim_C9 (credits : Nat → Option Nat)
    (cache cache1 cache2 : MessengerCache)
    (pending_request : PendingNeighborRequest)
    (hnd : pending_request.route.public_keys.Nodup)
    (hwf : frozen_wellformed cache.total_frozen)
    (ha : add_frozen_credit credits cache pending_request = some cache1)
    (hs : sub_frozen_credit credits cache1 pending_request = some cache2) :
    cache2 = cache := by
  unfold add_frozen_credit at ha
  by_cases hdest :
      cache.local_public_key = pending_request.route.dest_public_key
  · rw [if_pos hdest] at ha
    have h1 := Option.some.inj ha
    subst h1
    unfold sub_frozen_credit at hs
    rw [if_pos hdest] at hs
    exact (Option.some.inj hs).symm
  · rw [if_neg hdest] at ha
    cases hmy : pending_request.route.pk_index cache.local_public_key with
    | none => simp only [hmy] at ha; exact Option.noConfusion ha
    | some my =>
      simp only [hmy] at ha
      cases hnext : pending_request.route.pk_by_index (my + 1) with
      | none => simp only [hnext] at ha; exact Option.noConfusion ha
      | some next =>
        simp only [hnext] at ha
        cases haL : addLoop (prefixEntries credits pending_request.route my)
            ((cache.total_frozen.lookup next).getD ∅) with
        | none => simp only [haL] at ha; exact Option.noConfusion ha
        | some m1 =>
          simp only [haL] at ha
          have h1 := Option.some.inj ha
          subst h1
          simp only [sub_frozen_credit] at hs
          rw [if_neg hdest] at hs
          simp only [hmy, hnext, Finmap.lookup_insert] at hs
          cases hsL : subLoop (prefixEntries credits pending_request.route my)
              m1 with
          | none => simp only [hsL] at hs; exact Option.noConfusion hs
          | some m2 =>
            simp only [hsL] at hs
            have h2 := Option.some.inj hs
            subst h2
            have hndes : ((prefixEntries credits pending_request.route
                my).map Prod.fst).Nodup := by
              rw [prefixEntries_keys]
              exact (List.take_sublist my _).nodup hnd
            cases hmem : cache.total_frozen.lookup next with
            | none =>
                rw [hmem] at haL
                have hrt : m2 = (∅ : InnerFrozen) :=
                  loops_roundtrip hndes
                    (fun k v h => absurd h (by simp)) haL hsL
                have hT : (if m2 = (∅ : InnerFrozen) then
                    (cache.total_frozen.insert next m1).erase next
                  else (cache.total_frozen.insert next m1).insert next m2) =
                    cache.total_frozen := by
                  rw [if_pos hrt]
                  apply Finmap.ext_lookup
                  intro x
                  by_cases hx : x = next
                  · subst hx
                    rw [Finmap.lookup_erase, hmem]
                  · rw [Finmap.lookup_erase_ne hx,
                      Finmap.lookup_insert_of_ne _ hx]
                rw [hT]
            | some m0 =>
                rw [hmem] at haL
                obtain ⟨hne, hvals⟩ := hwf next m0 hmem
                have hrt : m2 = m0 := loops_roundtrip hndes hvals haL hsL
                have hT : (if m2 = (∅ : InnerFrozen) then
                    (cache.total_frozen.insert next m1).erase next
                  else (cache.total_frozen.insert next m1).insert next m2) =
                    cache.total_frozen := by
                  rw [if_neg (by rw [hrt]; exact hne)]
                  apply Finmap.ext_lookup
                  intro x
                  by_cases hx : x = next
                  · subst hx
                    rw [Finmap.lookup_insert, hmem, hrt]
                  · rw [Finmap.lookup_insert_of_ne _ hx,
                      Finmap.lookup_insert_of_ne _ hx]
                rw [hT]

/-- The constant fee schedule of the C9 scenarios: every hop freezes 3. -/
def c9_credits : Nat → Option Nat := fun _ => some 3

/-- The empty freeze-guard cache of node 5. -/
def c9_cache0 : MessengerCache := { local_public_key := 5, total_frozen := ∅ }

/-- A route on which node 5 is the first node (`my_index = 0`). -/
def c9_r1 : PendingNeighborRequest :=
  { route := { public_keys := [5, 6] }
    request_content_len := 0, processing_fee_proposal := 0
    max_response_len := 0 }

/-- A route on which node 5 is an intermediate node. -/
def c9_r2 : PendingNeighborRequest :=
  { route := { public_keys := [4, 5, 6] }
    request_content_len := 0, processing_fee_proposal := 0
    max_response_len := 0 }

/-- The reachable state holding an EMPTY submap at next hop 6, produced by
forwarding `c9_r1` (whose prefix loop is empty). -/
def c9_s : MessengerCache :=
  (add_frozen_credit c9_credits c9_cache0 c9_r1).getD c9_cache0

/-- `c9_s` after `add_frozen_credit` of `c9_r2`. -/
def c9_s1 : MessengerCache :=
  (add_frozen_credit c9_credits c9_s c9_r2).getD c9_cache0

/-- `c9_s1` after `sub_frozen_credit` of `c9_r2`. -/
def c9_s2 : MessengerCache :=
  (sub_frozen_credit c9_credits c9_s1 c9_r2).getD c9_cache0

/-- Counterexample to C9 as stated: from the reachable state `c9_s` (which
holds an empty submap at key 6), adding and then subtracting the same
request does NOT restore the state — the final cleanup deletes the submap
that was already present. -/
theorem claim_C9_counterexample :
    add_frozen_credit c9_credits c9_cache0 c9_r1 = some c9_s ∧
    add_frozen_credit c9_credits c9_s c9_r2 = some c9_s1 ∧
    sub_frozen_credit c9_credits c9_s1 c9_r2 = some c9_s2 ∧
    c9_s.total_frozen.lookup 6 = some (∅ : InnerFrozen) ∧
    c9_s2.total_frozen.lookup 6 = none ∧
    c9_s2 ≠ c9_s := by
  refine ⟨by decide, by decide, by decide, by decide, by decide, by decide⟩

/-- `c9_cache0` after `add_frozen_credit` of `c9_r2`. -/
def c9_w1 : MessengerCache :=
  (add_frozen_credit c9_credits c9_cache0 c9_r2).getD c9_cache0

/-- `c9_w1` after `sub_frozen_credit` of `c9_r2`. -/
def c9_w2 : MessengerCache :=
  (sub_frozen_credit c9_credits c9_w1 c9_r2).getD c9_cache0

/-- Witness for C9 at the well-formed (empty) state. -/
theorem claim_C9_witness : c9_w2 = c9_cache0 :=
  claim_C9 c9_credits c9_cache0 c9_w1 c9_w2 c9_r2 (by decide)
    (fun n m h => absurd h (by simp [c9_cache0])) (by decide) (by decide)

/-! ## `components/funder/src/friend.rs` (older vintage, claim C10)

This file predates `handler/handle_friend.rs` in the snapshot: its
`ChannelStatus` stores `(local_reset_terms, opt_remote_reset_terms)` pairs
and its channel is a `DirectionalTc` (from the absent
`token_channel/directional.rs`).  The directional channel is modelled by
the in-src `TokenChannel` (the same component in the newer file), its
mutation type by `TcMutation`, and its reset constructors by the in-src
`new_from_local_reset` / `new_from_remote_reset`; `unreachable!` and a
failed `assert_eq!` are modelled as `none`. -/

namespace Old

/-- Older `ResponseOp`. -/
inductive ResponseOp where
  | response : ResponseSendFunds → ResponseOp
  | failure : FailureSendFunds → ResponseOp
  deriving DecidableEq

/-- `FriendStatus`. -/
inductive FriendStatus where
  | enable : FriendStatus
  | disable : FriendStatus
  deriving DecidableEq

/-- Older `ChannelStatus`:
`Inconsistent((local_reset_terms, opt_remote_reset_terms)) |
Consistent(DirectionalTc)`. -/
inductive ChannelStatus where
  | inconsistent : ResetTerms × Option ResetTerms → ChannelStatus
  | consistent : TokenChannel → ChannelStatus
  deriving DecidableEq

/-- Older `FriendMutation`. -/
inductive FriendMutation where
  | directionalMutation : TcMutation → FriendMutation
  | setChannelStatus : ResetTerms × Option ResetTerms → FriendMutation
  | setWantedRemoteMaxDebt : Nat → FriendMutation
  | setWantedLocalRequestsStatus : RequestsStatus → FriendMutation
  | pushBackPendingRequest : RequestSendFunds → FriendMutation
  | popFrontPendingRequest : FriendMutation
  | pushBackPendingResponse : ResponseOp → FriendMutation
  | popFrontPendingResponse : FriendMutation
  | pushBackPendingUserRequest : RequestSendFunds → FriendMutation
  | popFrontPendingUserRequest : FriendMutation
  | setStatus : FriendStatus → FriendMutation
  | setFriendAddr : Nat → FriendMutation
  | localReset : MoveToken → FriendMutation
  | remoteReset : FriendMutation
  deriving DecidableEq

/-- Older `FriendState`. -/
structure FriendState where
  local_public_key : PublicKey
  remote_public_key : PublicKey
  remote_address : Nat
  channel_status : ChannelStatus
  wanted_remote_max_debt : Nat
  wanted_local_requests_status : RequestsStatus
  pending_responses : List ResponseOp
  pending_requests : List RequestSendFunds
  status : FriendStatus
  pending_user_requests : List RequestSendFunds
  deriving DecidableEq

end Old

/-- Modelled from the spec (§4.2): the synthetic reset move token built by
`DirectionalTc::new_from_remote_reset` from the agreed terms: `new_token =
reset_token`, `move_token_counter = 0`, `inconsistency_counter` the agreed
counter, balance the agreed reset balance, no operations or debts. -/
def reset_move_token_from_terms (t : ResetTerms) : MoveToken :=
  { operations := []
    opt_local_address := none
    old_token := t.reset_token
    inconsistency_counter := t.inconsistency_counter
    move_token_counter := 0
    balance := t.balance_for_reset
    local_pending_debt := 0
    remote_pending_debt := 0
    rand_nonce := 0
    new_token := t.reset_token }

/-- Older `FriendState::mutate`; `none` models the `unreachable!` panics
(`DirectionalMutation` while `Inconsistent`, `LocalReset` while `Consistent`
or with no remote reset terms stored, `RemoteReset` while `Consistent`) and
the failed `assert_eq!` of `LocalReset`. -/
def Old.FriendState.mutate (self : Old.FriendState)
    (friend_mutation : Old.FriendMutation) : Option Old.FriendState :=
  match friend_mutation with
  | Old.FriendMutation.directionalMutation directional_mutation =>
      match self.channel_status with
      | Old.ChannelStatus.consistent directional =>
          (directional.mutate directional_mutation).map (fun tc =>
            { self with channel_status := Old.ChannelStatus.consistent tc })
      | Old.ChannelStatus.inconsistent _ => none
  | Old.FriendMutation.setChannelStatus channel_status =>
      some { self with channel_status :=
        Old.ChannelStatus.inconsistent channel_status }
  | Old.FriendMutation.setWantedRemoteMaxDebt wanted_remote_max_debt =>
      some { self with wanted_remote_max_debt }
  | Old.FriendMutation.setWantedLocalRequestsStatus s =>
      some { self with wanted_local_requests_status := s }
  | Old.FriendMutation.pushBackPendingRequest request_send_funds =>
      some { self with pending_requests :=
        self.pending_requests ++ [request_send_funds] }
  | Old.FriendMutation.popFrontPendingRequest =>
      some { self with pending_requests := self.pending_requests.tail }
  | Old.FriendMutation.pushBackPendingResponse response_op =>
      some { self with pending_responses :=
        self.pending_responses ++ [response_op] }
  | Old.FriendMutation.popFrontPendingResponse =>
      some { self with pending_responses := self.pending_responses.tail }
  | Old.FriendMutation.pushBackPendingUserRequest request_send_funds =>
      some { self with pending_user_requests :=
        self.pending_user_requests ++ [request_send_funds] }
  | Old.FriendMutation.popFrontPendingUserRequest =>
      some { self with pending_user_requests :=
        self.pending_user_requests.tail }
  | Old.FriendMutation.setStatus friend_status =>
      some { self with status := friend_status }
  | Old.FriendMutation.setFriendAddr friend_addr =>
      some { self with remote_address := friend_addr }
  | Old.FriendMutation.localReset reset_move_token =>
      match self.channel_status with
      | Old.ChannelStatus.consistent _ => none
      | Old.ChannelStatus.inconsistent (_, none) => none
      | Old.ChannelStatus.inconsistent (_, some remote_reset_terms) =>
          if reset_move_token.old_token = remote_reset_terms.reset_token then
            some { self with channel_status := (Old.ChannelStatus.consistent
              (TokenChannel.new_from_local_reset self.local_public_key
                self.remote_public_key reset_move_token
                remote_reset_terms.balance_for_reset none)) }
          else none
  | Old.FriendMutation.remoteReset =>
      match self.channel_status with
      | Old.ChannelStatus.consistent _ => none
      | Old.ChannelStatus.inconsistent (local_reset_terms, _) =>
          some { self with channel_status := (Old.ChannelStatus.consistent
            (TokenChannel.new_from_remote_reset self.local_public_key
              self.remote_public_key
              (reset_move_token_from_terms local_reset_terms)
              local_reset_terms.balance_for_reset)) }

/-! ### Claim C10: panic conditions and handler-produced sequences -/

/-- The mutation lists a successful move-token receive produces. -/
theorem handle_incoming_received_shape (cc : CreditCalc) (tco : TcOutgoing)
    (new : MoveToken) (mtr : MoveTokenReceived)
    (h : TcOutgoing.handle_incoming cc tco new =
      Except.ok (ReceiveMoveTokenOutput.received mtr)) :
    ∃ outs : List ProcessOperationOutput,
      mtr.mutations =
        (outs.flatMap (fun o =>
          o.mc_mutations.map TcMutation.mcMutation)) ++
        [TcMutation.setDirection (SetDirection.incoming new)] := by
  unfold TcOutgoing.handle_incoming at h
  split at h
  · exact Except.noConfusion h
  split at h
  · unfold TcOutgoing.handle_incoming_token_match at h
    dsimp only at h
    split at h
    · exact Except.noConfusion h
    split at h
    · exact Except.noConfusion h
    split at h
    · exact Except.noConfusion h
    split at h
    · exact Except.noConfusion h
    split at h
    next outputs heq =>
      have h1 := Except.ok.inj h
      have h2 := ReceiveMoveTokenOutput.received.inj h1
      exact ⟨outputs, by rw [← h2]⟩
    next e heq => exact Except.noConfusion h
  split at h
  · have h1 := Except.ok.inj h
    exact ReceiveMoveTokenOutput.noConfusion h1
  · exact Except.noConfusion h

theorem mutate_isSome_of_ne_setTokenWanted (tc : TokenChannel)
    (m : TcMutation) (hm : m ≠ TcMutation.setTokenWanted) :
    (tc.mutate m).isSome := by
  cases m with
  | mcMutation mm =>
      cases htc : tc.direction <;> simp [TokenChannel.mutate, htc]
  | setDirection sd => simp [TokenChannel.mutate]
  | setTokenWanted => exact absurd rfl hm

theorem foldlM_mutate_isSome (ms : List TcMutation)
    (hms : ∀ m ∈ ms, m ≠ TcMutation.setTokenWanted) :
    ∀ tc : TokenChannel, (ms.foldlM TokenChannel.mutate tc).isSome := by
  induction ms with
  | nil => intro tc; rfl
  | cons m rest ih =>
      intro tc
      have hm := hms m (List.mem_cons_self _ _)
      have hsome := mutate_isSome_of_ne_setTokenWanted tc m hm
      cases htc : tc.mutate m with
      | none => rw [htc] at hsome; exact absurd hsome (by simp)
      | some tc' =>
          rw [List.foldlM_cons, htc]
          exact ih (fun x hx => hms x (List.mem_cons_of_mem _ hx)) tc'

/-- C10: (i) the mutation appliers are partial exactly as claimed:
`FriendState::mutate` hits `unreachable!` on a `DirectionalMutation` while
`Inconsistent`, on `LocalReset` while `Consistent` or with no remote reset
terms stored, and on `RemoteReset` while `Consistent`; `TokenChannel::mutate`
hits it on `SetTokenWanted` while `Incoming`.  (ii) Handler-driven execution
never reaches these branches: the mutation list of a successful move-token
receive contains no `SetTokenWanted` and applies without panic from any
channel, and under the guards the spec imposes on the producers —
`LocalReset` only from an `Inconsistent` channel with known remote terms and
a matching reset token (§4.4 `ResetFriendChannel`, §9), `RemoteReset` only
from an `Inconsistent` channel, `DirectionalMutation` only while
`Consistent` — the appliers always succeed. -/
theorem claim_C10 :
    (∀ (self : Old.FriendState) (dm : TcMutation)
        (p : ResetTerms × Option ResetTerms),
      self.channel_status = Old.ChannelStatus.inconsistent p →
      self.mutate (Old.FriendMutation.directionalMutation dm) = none) ∧
    (∀ (self : Old.FriendState) (mt : MoveToken) (tc : TokenChannel),
      self.channel_status = Old.ChannelStatus.consistent tc →
      self.mutate (Old.FriendMutation.localReset mt) = none) ∧
    (∀ (self : Old.FriendState) (mt : MoveToken) (t : ResetTerms),
      self.channel_status = Old.ChannelStatus.inconsistent (t, none) →
      self.mutate (Old.FriendMutation.localReset mt) = none) ∧
    (∀ (self : Old.FriendState) (tc : TokenChannel),
      self.channel_status = Old.ChannelStatus.consistent tc →
      self.mutate Old.FriendMutation.remoteReset = none) ∧
    (∀ (tc : TokenChannel) (tci : TcIncoming),
      tc.direction = TcDirection.incoming tci →
      tc.mutate TcMutation.setTokenWanted = none) ∧
    (∀ (cc : CreditCalc) (tco : TcOutgoing) (new : MoveToken)
        (mtr : MoveTokenReceived),
      TcOutgoing.handle_incoming cc tco new =
        Except.ok (ReceiveMoveTokenOutput.received mtr) →
      TcMutation.setTokenWanted ∉ mtr.mutations ∧
      ∀ tc : TokenChannel,
        (mtr.mutations.foldlM TokenChannel.mutate tc).isSome) ∧
    (∀ (self : Old.FriendState) (t rest : ResetTerms) (mt : MoveToken),
      self.channel_status = Old.ChannelStatus.inconsistent (t, some rest) →
      mt.old_token = rest.reset_token →
      (self.mutate (Old.FriendMutation.localReset mt)).isSome) ∧
    (∀ (self : Old.FriendState) (p : ResetTerms × Option ResetTerms),
      self.channel_status = Old.ChannelStatus.inconsistent p →
      (self.mutate Old.FriendMutation.remoteReset).isSome) ∧
    (∀ (self : Old.FriendState) (tc : TokenChannel) (dm : TcMutation),
      self.channel_status = Old.ChannelStatus.consistent tc →
      dm ≠ TcMutation.setTokenWanted →
      (self.mutate (Old.FriendMutation.directionalMutation dm)).isSome) := by
  refine ⟨?_, ?_, ?_, ?_, ?_, ?_, ?_, ?_, ?_⟩
  · intro self dm p hcs
    unfold Old.FriendState.mutate
    rw [hcs]
  · intro self mt tc hcs
    unfold Old.FriendState.mutate
    rw [hcs]
  · intro self mt t hcs
    unfold Old.FriendState.mutate
    rw [hcs]
  · intro self tc hcs
    unfold Old.FriendState.mutate
    rw [hcs]
  · intro tc tci hdir
    unfold TokenChannel.mutate
    rw [hdir]
  · intro cc tco new mtr h
    obtain ⟨outs, hmuts⟩ := handle_incoming_received_shape cc tco new mtr h
    have hsafe : ∀ m ∈ mtr.mutations, m ≠ TcMutation.setTokenWanted := by
      intro m hm
      rw [hmuts] at hm
      rcases List.mem_append.mp hm with hm | hm
      · obtain ⟨o, _, hmo⟩ := List.mem_flatMap.mp hm
        obtain ⟨mm, _, hmm⟩ := List.mem_map.mp hmo
        rw [← hmm]
        simp
      · rw [List.mem_singleton.mp hm]
        simp
    exact ⟨fun hc => hsafe _ hc rfl, foldlM_mutate_isSome _ hsafe⟩
  · intro self t rest mt hcs hold
    unfold Old.FriendState.mutate
    rw [hcs]
    simp [hold]
  · intro self p hcs
    unfold Old.FriendState.mutate
    rw [hcs]
    obtain ⟨t, orest⟩ := p
    simp
  · intro self tc dm hcs hdm
    unfold Old.FriendState.mutate
    rw [hcs]
    have := mutate_isSome_of_ne_setTokenWanted tc dm hdm
    cases htc : tc.mutate dm with
    | none => rw [htc] at this; exact absurd this (by simp)
    | some tc' => simp [htc]

/-- Reset terms of the C10 witness (our side). -/
def c10_terms : ResetTerms :=
  { reset_token := Data.resetToken 30
    inconsistency_counter := 1
    balance_for_reset := 0 }

/-- Reset terms of the C10 witness (remote side). -/
def c10_terms2 : ResetTerms :=
  { reset_token := Data.resetToken 31
    inconsistency_counter := 1
    balance_for_reset := 0 }

/-- A reset move token matching `c10_terms2`. -/
def c10_mt : MoveToken := reset_move_token_from_terms c10_terms2

/-- Base fields of the C10 witness friend states. -/
def c10_base : Old.FriendState :=
  { local_public_key := 1
    remote_public_key := 2
    remote_address := 0
    channel_status := Old.ChannelStatus.inconsistent (c10_terms, none)
    wanted_remote_max_debt := 0
    wanted_local_requests_status := RequestsStatus.closed
    pending_responses := []
    pending_requests := []
    status := Old.FriendStatus.enable
    pending_user_requests := [] }

/-- Inconsistent, no remote reset terms. -/
def c10_self_inc_none : Old.FriendState := c10_base

/-- Inconsistent, remote reset terms known. -/
def c10_self_inc_some : Old.FriendState :=
  { c10_base with channel_status :=
      Old.ChannelStatus.inconsistent (c10_terms, some c10_terms2) }

/-- Consistent channel. -/
def c10_self_con : Old.FriendState :=
  { c10_base with channel_status :=
      Old.ChannelStatus.consistent (TokenChannel.new 1 2) }

/-- The incoming side of `TokenChannel::new(3, 2)`. -/
def c10_tci : TcIncoming :=
  { mutual_credit := MutualCredit.new 3 2 0
    move_token_in :=
      { operations := []
        opt_local_address := none
        old_token := Data.fromPublicKey 3
        inconsistency_counter := 0
        move_token_counter := 0
        balance := 0
        local_pending_debt := 0
        remote_pending_debt := 0
        rand_nonce := 2
        new_token := Data.fromPublicKey 2 } }

/-- The last outgoing move token of the C10 receive scenario. -/
def c10_prev : MoveToken :=
  { operations := []
    opt_local_address := none
    old_token := Data.resetToken 40
    inconsistency_counter := 0
    move_token_counter := 0
    balance := 0
    local_pending_debt := 0
    remote_pending_debt := 0
    rand_nonce := 0
    new_token := Data.resetToken 41 }

/-- The outgoing channel side of the C10 receive scenario. -/
def c10_tco : TcOutgoing :=
  { mutual_credit := MutualCredit.new 1 2 0
    move_token_out := c10_prev
    token_wanted := false
    opt_prev_move_token_in := none }

/-- A valid empty incoming move token for `c10_tco`, signed by key 2. -/
def c10_new : MoveToken :=
  FriendMoveToken.new [] c10_prev.new_token 0 1 0 0 0 5 2

/-- The `MoveTokenReceived` produced by receiving `c10_new` on `c10_tco`. -/
def c10_mtr : MoveTokenReceived :=
  { incoming_messages := []
    mutations := [TcMutation.setDirection (SetDirection.incoming c10_new)] }

/-- Witness for C10, instantiating every conjunct at concrete inputs. -/
theorem claim_C10_witness :
    Old.FriendState.mutate c10_self_inc_none
      (Old.FriendMutation.directionalMutation TcMutation.setTokenWanted) =
      none ∧
    Old.FriendState.mutate c10_self_con
      (Old.FriendMutation.localReset c10_mt) = none ∧
    Old.FriendState.mutate c10_self_inc_none
      (Old.FriendMutation.localReset c10_mt) = none ∧
    Old.FriendState.mutate c10_self_con Old.FriendMutation.remoteReset =
      none ∧
    TokenChannel.mutate (TokenChannel.new 3 2) TcMutation.setTokenWanted =
      none ∧
    (TcMutation.setTokenWanted ∉ c10_mtr.mutations ∧
      (c10_mtr.mutations.foldlM TokenChannel.mutate
        (TokenChannel.new 1 2)).isSome) ∧
    (Old.FriendState.mutate c10_self_inc_some
      (Old.FriendMutation.localReset c10_mt)).isSome ∧
    (Old.FriendState.mutate c10_self_inc_some
      Old.FriendMutation.remoteReset).isSome ∧
    (Old.FriendState.mutate c10_self_con
      (Old.FriendMutation.directionalMutation
        (TcMutation.setDirection (SetDirection.incoming c10_new)))).isSome :=
  have h := claim_C10
  have h6 := h.2.2.2.2.2.1 zero_credit_calc c10_tco c10_new c10_mtr
    (by decide)
  ⟨h.1 c10_self_inc_none TcMutation.setTokenWanted (c10_terms, none) rfl,
   h.2.1 c10_self_con c10_mt (TokenChannel.new 1 2) rfl,
   h.2.2.1 c10_self_inc_none c10_mt c10_terms rfl,
   h.2.2.2.1 c10_self_con (TokenChannel.new 1 2) rfl,
   h.2.2.2.2.1 (TokenChannel.new 3 2) c10_tci (by decide),
   ⟨h6.1, h6.2 (TokenChannel.new 1 2)⟩,
   h.2.2.2.2.2.2.1 c10_self_inc_some c10_terms c10_terms2 c10_mt rfl rfl,
   h.2.2.2.2.2.2.2.1 c10_self_inc_some (c10_terms, some c10_terms2) rfl,
   h.2.2.2.2.2.2.2.2 c10_self_con (TokenChannel.new 1 2)
     (TcMutation.setDirection (SetDirection.incoming c10_new)) rfl
     (by decide)⟩

end Offst
